import Mathlib

/-!
# A shallow embedding of the next-js-scafold generator

This file embeds the core of the next-js-scafold CLI (a Next.js project
scaffolder) in Lean 4 and proves properties of its specification against it.

Embedded source files:
* `src/utils/packageManager.ts` — install/run command mapping;
* `src/utils/fileGenerator.ts` — `copyTemplates`, `generateFiles`,
  `createProjectStructure`, `getProjectStructure` (the manifest provider,
  transcribed byte-exactly, including every template content string);
* `src/createProject.ts` — the orchestrator;
* `src/index.ts` — option resolution in the CLI entry point.

Modelling conventions:
* TypeScript string values are Lean `String`s.  The TS union type
  `PackageManager` is erased at runtime and the CLI casts the raw flag with
  `as PackageManager` without a runtime check, so package-manager values are
  modelled as arbitrary strings (which is what the running program sees).
* A `switch` without a `default` that falls through returns `undefined` at
  runtime; such functions are modelled with `Option`.
* The filesystem subtree rooted at one directory is an association list from
  slash-separated relative paths to nodes; the head of the list is the most
  recent write, so lookup realizes overwrite semantics.
* Failure of a filesystem phase or of the install subprocess is injected
  through explicit boolean parameters; `Except` models a thrown error that
  the CLI entry point turns into a non-zero process exit.
-/

set_option maxRecDepth 100000

namespace NextScafold

/-! ## String utilities -/

/-- Contiguous-substring test on character lists: `segOccurs l pat` is true iff
`pat` occurs contiguously inside `l`.  This is the semantics of JS
`String.prototype.includes`. -/
def segOccurs (l pat : List Char) : Bool :=
  match l with
  | [] => pat.isEmpty
  | c :: t => pat.isPrefixOf (c :: t) || segOccurs t pat

/-- JS `src.includes(pat)`. -/
def strIncludes (s pat : String) : Bool :=
  segOccurs s.data pat.data

/-- Join path components with `/` (how the relative paths that appear in this
program are spelled). -/
def joinPath : List String → String
  | [] => ""
  | [c] => c
  | c :: c2 :: cs => c ++ "/" ++ joinPath (c2 :: cs)

/-! ## src/utils/packageManager.ts -/

/-- Model of `getInstallCommand`.  The TS `switch` has no `default` branch, so at
runtime an unrecognized value falls through and the function returns
`undefined`, modelled as `none`. -/
def getInstallCommand (packageManager : String) : Option String :=
  if packageManager = "npm" then some "npm install"
  else if packageManager = "pnpm" then some "pnpm install"
  else if packageManager = "yarn" then some "yarn install"
  else if packageManager = "bun" then some "bun install"
  else none

/-- Model of `getRunCommand`, same shape as `getInstallCommand`. -/
def getRunCommand (packageManager script : String) : Option String :=
  if packageManager = "npm" then some ("npm run " ++ script)
  else if packageManager = "pnpm" then some ("pnpm " ++ script)
  else if packageManager = "yarn" then some ("yarn " ++ script)
  else if packageManager = "bun" then some ("bun run " ++ script)
  else none

/-! ## src/utils/fileGenerator.ts — data model and manifest provider -/

/-- The `TemplateVariables` record. -/
structure TemplateVariables where
  projectName : String
  packageManager : String
deriving DecidableEq, Repr

/-- One `(path, content)` pair of the manifest. -/
structure FileEntry where
  path : String
  content : String
deriving DecidableEq, Repr

/-- The install-command ternary chain at the top of `getProjectStructure`:
`npm`/`pnpm`/`yarn` are tested and everything else takes the final `bun`
branch. -/
def installCmdOf (packageManager : String) : String :=
  if packageManager = "npm" then "npm install"
  else if packageManager = "pnpm" then "pnpm install"
  else if packageManager = "yarn" then "yarn install"
  else "bun install"

/-- The dev-command ternary chain at the top of `getProjectStructure`. -/
def devCmdOf (packageManager : String) : String :=
  if packageManager = "npm" then "npm run dev"
  else if packageManager = "pnpm" then "pnpm dev"
  else if packageManager = "yarn" then "yarn dev"
  else "bun run dev"

/-- Hex digit used by the JSON.stringify `\u00XX` escapes. -/
def hexDigit (n : Nat) : Char :=
  if n < 10 then Char.ofNat (48 + n) else Char.ofNat (87 + n)

/-- Four-digit hex rendering for JSON `\uXXXX` escapes. -/
def hex4 (n : Nat) : List Char :=
  [hexDigit (n / 4096 % 16), hexDigit (n / 256 % 16), hexDigit (n / 16 % 16), hexDigit (n % 16)]

/-- The JSON.stringify escaping of one character inside a string value. -/
def jsonEscapeChar (c : Char) : List Char :=
  if c = '"' then ['\\', '"']
  else if c = '\\' then ['\\', '\\']
  else if c = '\n' then ['\\', 'n']
  else if c = '\r' then ['\\', 'r']
  else if c = '\t' then ['\\', 't']
  else if c.toNat = 8 then ['\\', 'b']
  else if c.toNat = 12 then ['\\', 'f']
  else if c.toNat < 32 then '\\' :: 'u' :: hex4 c.toNat
  else [c]

/-- The JSON.stringify escaping of a whole string body. -/
def jsonEscape : List Char → List Char
  | [] => []
  | c :: rest => jsonEscapeChar c ++ jsonEscape rest

/-- A JSON string literal for `s`, as produced by JSON.stringify. -/
def jsonStr (s : String) : String :=
  "\"" ++ String.mk (jsonEscape s.data) ++ "\""
/-! Byte-exact transcription of the manifest contents returned by
    getProjectStructure in src/utils/fileGenerator.ts. -/

/-- package.json content before the name value. -/
def packageJsonPre : String :=
  "\x7b\n  \"name\": "

/-- package.json content after the name value. -/
def packageJsonPost : String :=
  ",\n  \"version\": \"0.1.0\",\n  \"private\": true,\n  \"scripts\": \x7b\n    \"dev\": \"next dev\",\n    \"build\": \"next build\",\n    \"start\": \"next start\",\n    \"lint\": \"eslint\"\n  \x7d,\n  \"dependencies\": \x7b\n    \"@hookform/resolvers\": \"^5.2.2\",\n    \"@tanstack/react-query\": \"^5.90.20\",\n    \"class-variance-authority\": \"^0.7.1\",\n    \"clsx\": \"^2.1.1\",\n    \"lucide-react\": \"^0.563.0\",\n    \"next\": \"16.1.6\",\n    \"radix-ui\": \"^1.4.3\",\n    \"react\": \"19.2.3\",\n    \"react-dom\": \"19.2.3\",\n    \"react-hook-form\": \"^7.71.1\",\n    \"tailwind-merge\": \"^3.4.0\",\n    \"zod\": \"^4.3.6\"\n  \x7d,\n  \"devDependencies\": \x7b\n    \"@tailwindcss/postcss\": \"^4\",\n    \"@types/node\": \"^20\",\n    \"@types/react\": \"^19\",\n    \"@types/react-dom\": \"^19\",\n    \"eslint\": \"^9\",\n    \"eslint-config-next\": \"16.1.6\",\n    \"tailwindcss\": \"^4\",\n    \"tw-animate-css\": \"^1.4.0\",\n    \"typescript\": \"^5\"\n  \x7d\n\x7d"

/-- package.json content: JSON.stringify of the object literal, with the
    project name embedded as a JSON string value. -/
def packageJsonContent (projectName : String) : String :=
  packageJsonPre ++ jsonStr projectName ++ packageJsonPost

def tsconfigContent : String :=
  "\x7b\n  \"compilerOptions\": \x7b\n    \"target\": \"ES2017\",\n    \"lib\": [\n      \"dom\",\n      \"dom.iterable\",\n      \"esnext\"\n    ],\n    \"allowJs\": true,\n    \"skipLibCheck\": true,\n    \"strict\": true,\n    \"noEmit\": true,\n    \"esModuleInterop\": true,\n    \"module\": \"esnext\",\n    \"moduleResolution\": \"bundler\",\n    \"resolveJsonModule\": true,\n    \"isolatedModules\": true,\n    \"jsx\": \"react-jsx\",\n    \"incremental\": true,\n    \"plugins\": [\n      \x7b\n        \"name\": \"next\"\n      \x7d\n    ],\n    \"paths\": \x7b\n      \"@/*\": [\n        \"./src/*\"\n      ]\n    \x7d\n  \x7d,\n  \"include\": [\n    \"next-env.d.ts\",\n    \"**/*.ts\",\n    \"**/*.tsx\",\n    \".next/types/**/*.ts\",\n    \".next/dev/types/**/*.ts\",\n    \"**/*.mts\"\n  ],\n  \"exclude\": [\n    \"node_modules\"\n  ]\n\x7d"

def content_next_config_ts : String :=
  "import type \x7b NextConfig \x7d from \"next\";\n\nconst BACKEND_URL =\n  process.env.NEXT_PUBLIC_BACKEND_URL || \"http://localhost:3001\";\n\nconst nextConfig: NextConfig = \x7b\n  /* config options here */\n  async rewrites() \x7b\n    return [\n      // Proxy API requests to backend (same-origin for cookies)\n      \x7b\n        source: \"/api/v1/:path*\",\n        destination: \x60$\x7bBACKEND_URL\x7d/api/v1/:path*\x60,\n      \x7d,\n      // Proxy auth requests to backend\n      \x7b\n        source: \"/api/auth/:path*\",\n        destination: \x60$\x7bBACKEND_URL\x7d/api/auth/:path*\x60,\n      \x7d,\n    ]\n  \x7d\n\x7d;\n\nexport default nextConfig;\n"

def content_eslint_config_mjs : String :=
  "import \x7b defineConfig, globalIgnores \x7d from \"eslint/config\";\nimport nextVitals from \"eslint-config-next/core-web-vitals\";\nimport nextTs from \"eslint-config-next/typescript\";\n\nconst eslintConfig = defineConfig([\n  ...nextVitals,\n  ...nextTs,\n  // Override default ignores of eslint-config-next.\n  globalIgnores([\n    // Default ignores of eslint-config-next:\n    \".next/**\",\n    \"out/**\",\n    \"build/**\",\n    \"next-env.d.ts\",\n  ]),\n]);\n\nexport default eslintConfig;\n"

def content_postcss_config_mjs : String :=
  "const config = \x7b\n  plugins: \x7b\n    \"@tailwindcss/postcss\": \x7b\x7d,\n  \x7d,\n\x7d;\n\nexport default config;\n"

/-- README.md content between the project name and the install command. -/
def readmeMid1 : String :=
  "\n\nThis is a [Next.js](https://nextjs.org) project bootstrapped with [scaffold](https://github.com/your-repo/scaffold).\n\n\x23\x23 Getting Started\n\nFirst, install dependencies:\n\n\x60\x60\x60bash\n"

/-- README.md content between the install and dev commands. -/
def readmeMid2 : String :=
  "\n\x60\x60\x60\n\nThen, run the development server:\n\n\x60\x60\x60bash\n"

/-- README.md content after the dev command. -/
def readmeEnd : String :=
  "\n\x60\x60\x60\n\nOpen [http://localhost:3000](http://localhost:3000) with your browser to see the result.\n\n\x23\x23 Project Structure\n\n\x60\x60\x60\nsrc/\n  app/              \x23 Next.js app directory\n  config/           \x23 Configuration files\n  features/         \x23 Feature-based modules\n  shared/           \x23 Shared utilities and components\n  stores/           \x23 State management\n  styles/           \x23 Global styles\n  tests/            \x23 Test files\n\x60\x60\x60\n\n\x23\x23 Learn More\n\nTo learn more about Next.js, take a look at the following resources:\n\n- [Next.js Documentation](https://nextjs.org/docs) - learn about Next.js features and API.\n- [Learn Next.js](https://nextjs.org/learn) - an interactive Next.js tutorial.\n"

/-- README.md content: template literal interpolating the project name and
    the derived install/dev command strings. -/
def readmeContent (projectName installCmd devCmd : String) : String :=
  "\x23 " ++ projectName ++ readmeMid1 ++ installCmd ++ readmeMid2 ++ devCmd ++ readmeEnd

def content_src_app_layout_tsx : String :=
  "import type \x7b Metadata \x7d from \"next\";\nimport \x7b Geist, Geist_Mono \x7d from \"next/font/google\";\nimport \"../styles/globals.css\";\nimport AppProviders from \"./providers\";\n\nconst geistSans = Geist(\x7b\n  variable: \"--font-geist-sans\",\n  subsets: [\"latin\"],\n\x7d);\n\nconst geistMono = Geist_Mono(\x7b\n  variable: \"--font-geist-mono\",\n  subsets: [\"latin\"],\n\x7d);\n\nexport const metadata: Metadata = \x7b\n  title: \"Create Next App\",\n  description: \"Generated by create next app\",\n\x7d;\n\nexport default function RootLayout(\x7b\n  children,\n\x7d: Readonly<\x7b\n  children: React.ReactNode;\n\x7d>) \x7b\n  return (\n    <html lang=\"en\">\n      <body\n        className=\x7b\x60$\x7bgeistSans.variable\x7d $\x7bgeistMono.variable\x7d antialiased\x60\x7d\n      >\n        <AppProviders>\n          \x7bchildren\x7d\n        </AppProviders>\n      </body>\n    </html>\n  );\n\x7d\n"

def content_src_app_providers_tsx : String :=
  "\x27use client\x27\n\nimport \x7b QueryClient, QueryClientProvider \x7d from \"@tanstack/react-query\";\n\nconst queryClient = new QueryClient();\n\nexport default function AppProviders(\x7b children \x7d: \x7b children: React.ReactNode \x7d) \x7b\n  return (\n    <QueryClientProvider client=\x7bqueryClient\x7d>\n      \x7bchildren\x7d\n    </QueryClientProvider>\n  )\n\x7d\n"

def content_src_app_page_tsx : String :=
  "import Image from \"next/image\";\nimport Link from \"next/link\";\nimport CodeBlock from \"@/shared/components/CodeBlock\";\n\n// Links and Constants\nconst LINKS = \x7b\n  npm: \"https://www.npmjs.com/package/scaffold\",\n  github: \"https://github.com/JohnOGama/next-js-scaffold\",\n  linkedin: \"https://www.linkedin.com/in/johnogama/\",\n  facebook: \"https://www.facebook.com/CreatorVayne/\",\n  quickStartGuide: \"https://github.com/JohnOGama/next-js-scaffold/blob/main/README.md\",\n\x7d as const;\n\nconst AUTHOR = \x7b\n  name: \"John Ogama\",\n\x7d as const;\n\nexport default function Home() \x7b\n  return (\n    <div className=\"relative min-h-screen bg-gradient-to-br from-zinc-50 via-white to-zinc-100 font-sans dark:from-black dark:via-zinc-950 dark:to-zinc-900 overflow-hidden\">\n      \x7b/* Dot Pattern Background */\x7d\n      <div\n        className=\"absolute inset-0 opacity-30 dark:opacity-20\"\n        style=\x7b\x7b\n          backgroundImage: \x60radial-gradient(circle, rgb(113 113 122) 1px, transparent 1px)\x60,\n          backgroundSize: \x2724px 24px\x27,\n        \x7d\x7d\n      ></div>\n\n      \x7b/* Dark Shadow Overlay */\x7d\n      <div className=\"absolute inset-0 bg-gradient-to-b from-transparent via-zinc-900/5 to-zinc-900/10 dark:from-transparent dark:via-zinc-950/20 dark:to-zinc-950/30 pointer-events-none\"></div>\n\n      \x7b/* Content */\x7d\n      <main className=\"relative mx-auto max-w-6xl px-4 py-16 sm:px-6 lg:px-8 z-10\">\n        \x7b/* Hero Section */\x7d\n        <div className=\"flex flex-col items-center justify-center text-center py-20\">\n          <div className=\"mb-8 relative\">\n            <div className=\"absolute inset-0 bg-gradient-to-r from-blue-500/20 to-purple-500/20 blur-3xl rounded-full\"></div>\n            <div className=\"relative\">\n              <Image\n                className=\"dark:invert mx-auto drop-shadow-lg\"\n                src=\"/next.svg\"\n                alt=\"Next.js logo\"\n                width=\x7b120\x7d\n                height=\x7b24\x7d\n                priority\n              />\n            </div>\n          </div>\n          <div className=\"mb-6 inline-flex items-center gap-2 rounded-full border border-zinc-200 dark:border-zinc-800 bg-white/50 dark:bg-zinc-900/50 backdrop-blur-sm px-4 py-1.5 text-sm text-zinc-600 dark:text-zinc-400\">\n            <span className=\"relative flex h-2 w-2\">\n              <span className=\"animate-ping absolute inline-flex h-full w-full rounded-full bg-green-400 opacity-75\"></span>\n              <span className=\"relative inline-flex rounded-full h-2 w-2 bg-green-500\"></span>\n            </span>\n            CLI Tool for Next.js\n          </div>\n          <h1 className=\"mb-6 bg-gradient-to-r from-zinc-900 via-zinc-800 to-zinc-900 dark:from-zinc-50 dark:via-zinc-100 dark:to-zinc-50 bg-clip-text text-5xl font-bold tracking-tight text-transparent sm:text-6xl lg:text-7xl\">\n            Scafold\n          </h1>\n          <p className=\"mb-4 max-w-2xl text-xl leading-8 text-zinc-700 dark:text-zinc-300 sm:text-2xl font-medium\">\n            A powerful CLI tool to scaffold Next.js projects with a structured, feature-based architecture\n          </p>\n          <p className=\"mb-12 max-w-xl text-lg text-zinc-600 dark:text-zinc-400\">\n            Clone, build, and link to start scaffolding Next.js projects locally\n          </p>\n\n          \x7b/* Installation Code Block */\x7d\n          <div className=\"w-full max-w-2xl mb-12\">\n            <div className=\"group relative rounded-xl bg-zinc-900 dark:bg-zinc-950 p-3 border border-zinc-800 shadow-2xl hover:shadow-zinc-900/50 dark:hover:shadow-zinc-950/50 transition-all duration-300\">\n              <div className=\"absolute inset-0 rounded-xl bg-gradient-to-r from-blue-500/0 via-purple-500/0 to-pink-500/0 group-hover:from-blue-500/5 group-hover:via-purple-500/5 group-hover:to-pink-500/5 transition-all duration-300\"></div>\n              <div className=\"relative\">\n                <div className=\"flex items-center justify-between mb-4\">\n                  <div className=\"flex items-center gap-2\">\n                    <div className=\"flex gap-1.5\">\n                      <div className=\"h-3 w-3 rounded-full bg-red-500 shadow-lg shadow-red-500/50\"></div>\n                      <div className=\"h-3 w-3 rounded-full bg-yellow-500 shadow-lg shadow-yellow-500/50\"></div>\n                      <div className=\"h-3 w-3 rounded-full bg-green-500 shadow-lg shadow-green-500/50\"></div>\n                    </div>\n                    <span className=\"text-sm text-zinc-400 ml-2 font-medium\">Terminal</span>\n                  </div>\n                  <span className=\"text-xs text-zinc-500 px-2 py-1 rounded bg-zinc-800/50\">Installation</span>\n                </div>\n                <div className=\"space-y-2\">\n                  <CodeBlock command=\x7b\x60git clone $\x7bLINKS.github\x7d.git\x60\x7d />\n                  <CodeBlock command=\"cd next-js-scaffold\" />\n                  <CodeBlock command=\"npm install\" />\n                  <CodeBlock command=\"npm run build\" />\n                  <CodeBlock command=\"npm link\" />\n                </div>\n              </div>\n            </div>\n          </div>\n\n          \x7b/* Quick Start */\x7d\n          <div className=\"w-full max-w-2xl mb-16\">\n            <div className=\"flex items-center justify-between mb-6\">\n              <h2 className=\"text-2xl font-semibold text-black dark:text-zinc-50\">\n                Quick Start\n              </h2>\n              <Link\n                href=\x7bLINKS.quickStartGuide\x7d\n                target=\"_blank\"\n                rel=\"noopener noreferrer\"\n                className=\"group text-sm text-zinc-600 dark:text-zinc-400 hover:text-zinc-900 dark:hover:text-zinc-100 transition-colors flex items-center gap-1\"\n              >\n                View Full Guide\n                <span className=\"group-hover:translate-x-1 transition-transform\">→</span>\n              </Link>\n            </div>\n            <div className=\"group relative rounded-xl bg-zinc-900 dark:bg-zinc-950 p-6 border border-zinc-800 shadow-2xl hover:shadow-zinc-900/50 dark:hover:shadow-zinc-950/50 transition-all duration-300\">\n              <div className=\"absolute inset-0 rounded-xl bg-gradient-to-r from-blue-500/0 via-purple-500/0 to-pink-500/0 group-hover:from-blue-500/5 group-hover:via-purple-500/5 group-hover:to-pink-500/5 transition-all duration-300\"></div>\n              <div className=\"relative space-y-5\">\n                <div>\n                  <div className=\"flex items-center gap-2 mb-3\">\n                    <span className=\"text-xs font-semibold text-zinc-400 uppercase tracking-wider\">Interactive Mode</span>\n                    <span className=\"text-xs px-2 py-0.5 rounded-full bg-green-500/20 text-green-400 border border-green-500/30\">Recommended</span>\n                  </div>\n                  <CodeBlock command=\"next-js-scaffold\" />\n                </div>\n              </div>\n            </div>\n          </div>\n        </div>\n\n        \x7b/* Features Grid */\x7d\n        <div className=\"grid gap-6 sm:grid-cols-2 lg:grid-cols-3 mb-16\">\n          <div className=\"group relative rounded-xl border border-zinc-200 dark:border-zinc-800 bg-white/80 dark:bg-zinc-950/80 backdrop-blur-sm p-6 hover:border-zinc-300 dark:hover:border-zinc-700 hover:shadow-lg hover:shadow-zinc-200/50 dark:hover:shadow-zinc-900/50 transition-all duration-300 hover:-translate-y-1\">\n            <div className=\"absolute inset-0 rounded-xl bg-gradient-to-br from-blue-500/0 to-purple-500/0 group-hover:from-blue-500/5 group-hover:to-purple-500/5 transition-all duration-300\"></div>\n            <div className=\"relative\">\n              <div className=\"mb-4 text-3xl group-hover:scale-110 transition-transform duration-300\">🚀</div>\n              <h3 className=\"mb-2 text-lg font-semibold text-black dark:text-zinc-50\">\n                Quick Setup\n              </h3>\n              <p className=\"text-sm text-zinc-600 dark:text-zinc-400 leading-relaxed\">\n                Generate a complete Next.js project in seconds with all the tools you need\n              </p>\n            </div>\n          </div>\n\n          <div className=\"group relative rounded-xl border border-zinc-200 dark:border-zinc-800 bg-white/80 dark:bg-zinc-950/80 backdrop-blur-sm p-6 hover:border-zinc-300 dark:hover:border-zinc-700 hover:shadow-lg hover:shadow-zinc-200/50 dark:hover:shadow-zinc-900/50 transition-all duration-300 hover:-translate-y-1\">\n            <div className=\"absolute inset-0 rounded-xl bg-gradient-to-br from-green-500/0 to-emerald-500/0 group-hover:from-green-500/5 group-hover:to-emerald-500/5 transition-all duration-300\"></div>\n            <div className=\"relative\">\n              <div className=\"mb-4 text-3xl group-hover:scale-110 transition-transform duration-300\">📦</div>\n              <h3 className=\"mb-2 text-lg font-semibold text-black dark:text-zinc-50\">\n                Package Manager Support\n              </h3>\n              <p className=\"text-sm text-zinc-600 dark:text-zinc-400 leading-relaxed\">\n                Works seamlessly with npm, pnpm, yarn, and bun\n              </p>\n            </div>\n          </div>\n\n          <div className=\"group relative rounded-xl border border-zinc-200 dark:border-zinc-800 bg-white/80 dark:bg-zinc-950/80 backdrop-blur-sm p-6 hover:border-zinc-300 dark:hover:border-zinc-700 hover:shadow-lg hover:shadow-zinc-200/50 dark:hover:shadow-zinc-900/50 transition-all duration-300 hover:-translate-y-1\">\n            <div className=\"absolute inset-0 rounded-xl bg-gradient-to-br from-orange-500/0 to-red-500/0 group-hover:from-orange-500/5 group-hover:to-red-500/5 transition-all duration-300\"></div>\n            <div className=\"relative\">\n              <div className=\"mb-4 text-3xl group-hover:scale-110 transition-transform duration-300\">🏗️</div>\n              <h3 className=\"mb-2 text-lg font-semibold text-black dark:text-zinc-50\">\n                Structured Architecture\n              </h3>\n              <p className=\"text-sm text-zinc-600 dark:text-zinc-400 leading-relaxed\">\n                Feature-based folder structure for scalable applications\n              </p>\n            </div>\n          </div>\n\n          <div className=\"group relative rounded-xl border border-zinc-200 dark:border-zinc-800 bg-white/80 dark:bg-zinc-950/80 backdrop-blur-sm p-6 hover:border-zinc-300 dark:hover:border-zinc-700 hover:shadow-lg hover:shadow-zinc-200/50 dark:hover:shadow-zinc-900/50 transition-all duration-300 hover:-translate-y-1\">\n            <div className=\"absolute inset-0 rounded-xl bg-gradient-to-br from-yellow-500/0 to-amber-500/0 group-hover:from-yellow-500/5 group-hover:to-amber-500/5 transition-all duration-300\"></div>\n            <div className=\"relative\">\n              <div className=\"mb-4 text-3xl group-hover:scale-110 transition-transform duration-300\">⚡</div>\n              <h3 className=\"mb-2 text-lg font-semibold text-black dark:text-zinc-50\">\n                TypeScript Ready\n              </h3>\n              <p className=\"text-sm text-zinc-600 dark:text-zinc-400 leading-relaxed\">\n                Full TypeScript support out of the box with proper type definitions\n              </p>\n            </div>\n          </div>\n\n          <div className=\"group relative rounded-xl border border-zinc-200 dark:border-zinc-800 bg-white/80 dark:bg-zinc-950/80 backdrop-blur-sm p-6 hover:border-zinc-300 dark:hover:border-zinc-700 hover:shadow-lg hover:shadow-zinc-200/50 dark:hover:shadow-zinc-900/50 transition-all duration-300 hover:-translate-y-1\">\n            <div className=\"absolute inset-0 rounded-xl bg-gradient-to-br from-pink-500/0 to-rose-500/0 group-hover:from-pink-500/5 group-hover:to-rose-500/5 transition-all duration-300\"></div>\n            <div className=\"relative\">\n              <div className=\"mb-4 text-3xl group-hover:scale-110 transition-transform duration-300\">🎨</div>\n              <h3 className=\"mb-2 text-lg font-semibold text-black dark:text-zinc-50\">\n                Tailwind CSS v4\n              </h3>\n              <p className=\"text-sm text-zinc-600 dark:text-zinc-400 leading-relaxed\">\n                Pre-configured with the latest Tailwind CSS for modern styling\n              </p>\n            </div>\n          </div>\n\n          <div className=\"group relative rounded-xl border border-zinc-200 dark:border-zinc-800 bg-white/80 dark:bg-zinc-950/80 backdrop-blur-sm p-6 hover:border-zinc-300 dark:hover:border-zinc-700 hover:shadow-lg hover:shadow-zinc-200/50 dark:hover:shadow-zinc-900/50 transition-all duration-300 hover:-translate-y-1\">\n            <div className=\"absolute inset-0 rounded-xl bg-gradient-to-br from-indigo-500/0 to-violet-500/0 group-hover:from-indigo-500/5 group-hover:to-violet-500/5 transition-all duration-300\"></div>\n            <div className=\"relative\">\n              <div className=\"mb-4 text-3xl group-hover:scale-110 transition-transform duration-300\">🔧</div>\n              <h3 className=\"mb-2 text-lg font-semibold text-black dark:text-zinc-50\">\n                Pre-configured\n              </h3>\n              <p className=\"text-sm text-zinc-600 dark:text-zinc-400 leading-relaxed\">\n                ESLint, TypeScript, and other tools ready to use immediately\n              </p>\n            </div>\n          </div>\n        </div>\n\n        \x7b/* What\x27s Included */\x7d\n        <div className=\"relative rounded-xl border border-zinc-200 dark:border-zinc-800 bg-white/80 dark:bg-zinc-950/80 backdrop-blur-sm p-8 mb-16 shadow-lg shadow-zinc-200/50 dark:shadow-zinc-900/50\">\n          <div className=\"absolute inset-0 rounded-xl bg-gradient-to-br from-blue-500/5 via-purple-500/5 to-pink-500/5\"></div>\n          <div className=\"relative\">\n            <h2 className=\"mb-6 text-2xl font-semibold text-black dark:text-zinc-50\">\n              What&apos;s Included\n            </h2>\n            <div className=\"grid gap-6 sm:grid-cols-2\">\n              <div className=\"space-y-3\">\n                <h3 className=\"text-sm font-semibold text-zinc-900 dark:text-zinc-100 uppercase tracking-wide flex items-center gap-2\">\n                  <span className=\"h-1 w-1 rounded-full bg-blue-500\"></span>\n                  Core Dependencies\n                </h3>\n                <ul className=\"space-y-2.5 text-sm text-zinc-600 dark:text-zinc-400\">\n                  <li className=\"flex items-center gap-2\">\n                    <span className=\"text-zinc-400\">•</span>\n                    <span>Next.js 16.1.6</span>\n                  </li>\n                  <li className=\"flex items-center gap-2\">\n                    <span className=\"text-zinc-400\">•</span>\n                    <span>React 19.2.3</span>\n                  </li>\n                  <li className=\"flex items-center gap-2\">\n                    <span className=\"text-zinc-400\">•</span>\n                    <span>TypeScript 5</span>\n                  </li>\n                  <li className=\"flex items-center gap-2\">\n                    <span className=\"text-zinc-400\">•</span>\n                    <span>Tailwind CSS 4</span>\n                  </li>\n                </ul>\n              </div>\n              <div className=\"space-y-3\">\n                <h3 className=\"text-sm font-semibold text-zinc-900 dark:text-zinc-100 uppercase tracking-wide flex items-center gap-2\">\n                  <span className=\"h-1 w-1 rounded-full bg-purple-500\"></span>\n                  Additional Tools\n                </h3>\n                <ul className=\"space-y-2.5 text-sm text-zinc-600 dark:text-zinc-400\">\n                  <li className=\"flex items-center gap-2\">\n                    <span className=\"text-zinc-400\">•</span>\n                    <span>React Hook Form</span>\n                  </li>\n                  <li className=\"flex items-center gap-2\">\n                    <span className=\"text-zinc-400\">•</span>\n                    <span>Zod Validation</span>\n                  </li>\n                  <li className=\"flex items-center gap-2\">\n                    <span className=\"text-zinc-400\">•</span>\n                    <span>TanStack Query</span>\n                  </li>\n                  <li className=\"flex items-center gap-2\">\n                    <span className=\"text-zinc-400\">•</span>\n                    <span>Example Auth Feature</span>\n                  </li>\n                </ul>\n              </div>\n            </div>\n          </div>\n        </div>\n\n        \x7b/* CTA Section */\x7d\n        <div className=\"text-center py-16\">\n          <div className=\"mb-6 inline-flex items-center gap-2 rounded-full border border-zinc-200 dark:border-zinc-800 bg-white/50 dark:bg-zinc-900/50 backdrop-blur-sm px-4 py-1.5 text-sm text-zinc-600 dark:text-zinc-400\">\n            <span>✨</span>\n            <span>Ready to build something amazing?</span>\n          </div>\n          <h2 className=\"mb-4 text-3xl font-bold text-black dark:text-zinc-50\">\n            Ready to get started?\n          </h2>\n          <p className=\"mb-10 max-w-xl mx-auto text-lg text-zinc-600 dark:text-zinc-400\">\n            Clone, build, and link to start scaffolding Next.js projects locally\n          </p>\n          <div className=\"flex flex-col items-center gap-4 sm:flex-row sm:justify-center\">\n            <Link\n              className=\"group flex h-12 items-center justify-center gap-2 rounded-full border-2 border-zinc-300 dark:border-zinc-700 bg-white/50 dark:bg-zinc-900/50 backdrop-blur-sm px-8 font-medium transition-all duration-300 hover:scale-105 hover:border-zinc-400 dark:hover:border-zinc-600 hover:bg-zinc-50 dark:hover:bg-zinc-800 hover:shadow-lg\"\n              href=\x7bLINKS.github\x7d\n              target=\"_blank\"\n              rel=\"noopener noreferrer\"\n            >\n              <svg className=\"w-5 h-5\" fill=\"currentColor\" viewBox=\"0 0 24 24\" aria-hidden=\"true\">\n                <path fillRule=\"evenodd\" d=\"M12 2C6.477 2 2 6.484 2 12.017c0 4.425 2.865 8.18 6.839 9.504.5.092.682-.217.682-.483 0-.237-.008-.868-.013-1.703-2.782.605-3.369-1.343-3.369-1.343-.454-1.158-1.11-1.466-1.11-1.466-.908-.62.069-.608.069-.608 1.003.07 1.531 1.032 1.531 1.032.892 1.53 2.341 1.088 2.91.832.092-.647.35-1.088.636-1.338-2.22-.253-4.555-1.113-4.555-4.951 0-1.093.39-1.988 1.029-2.688-.103-.253-.446-1.272.098-2.65 0 0 .84-.27 2.75 1.026A9.564 9.564 0 0112 6.844c.85.004 1.705.115 2.504.337 1.909-1.296 2.747-1.027 2.747-1.027.546 1.379.202 2.398.1 2.651.64.7 1.028 1.595 1.028 2.688 0 3.848-2.339 4.695-4.566 4.943.359.309.678.92.678 1.855 0 1.338-.012 2.419-.012 2.747 0 .268.18.58.688.482A10.019 10.019 0 0022 12.017C22 6.484 17.522 2 12 2z\" clipRule=\"evenodd\" />\n              </svg>\n              <span className=\"text-black dark:text-zinc-50\">View on GitHub</span>\n            </Link>\n          </div>\n        </div>\n\n        \x7b/* Author Section */\x7d\n        <div className=\"text-center py-12 border-t border-zinc-200 dark:border-zinc-800\">\n          <p className=\"mb-6 text-sm text-zinc-600 dark:text-zinc-400\">\n            Created with <span className=\"text-red-500\">♥</span> by\x7b\" \"\x7d\n            <span className=\"font-semibold bg-gradient-to-r from-blue-600 to-purple-600 dark:from-blue-400 dark:to-purple-400 bg-clip-text text-transparent\">\n              \x7bAUTHOR.name\x7d\n            </span>\n          </p>\n          <div className=\"flex items-center justify-center gap-6\">\n            <Link\n              href=\x7bLINKS.github\x7d\n              target=\"_blank\"\n              rel=\"noopener noreferrer\"\n              className=\"group relative flex items-center justify-center w-10 h-10 rounded-full border border-zinc-300 dark:border-zinc-700 bg-white/50 dark:bg-zinc-900/50 backdrop-blur-sm text-zinc-600 dark:text-zinc-400 hover:text-zinc-900 dark:hover:text-zinc-100 hover:border-zinc-400 dark:hover:border-zinc-600 hover:bg-zinc-50 dark:hover:bg-zinc-800 transition-all duration-300 hover:scale-110 hover:shadow-lg\"\n              aria-label=\"GitHub\"\n            >\n              <svg className=\"w-5 h-5\" fill=\"currentColor\" viewBox=\"0 0 24 24\" aria-hidden=\"true\">\n                <path fillRule=\"evenodd\" d=\"M12 2C6.477 2 2 6.484 2 12.017c0 4.425 2.865 8.18 6.839 9.504.5.092.682-.217.682-.483 0-.237-.008-.868-.013-1.703-2.782.605-3.369-1.343-3.369-1.343-.454-1.158-1.11-1.466-1.11-1.466-.908-.62.069-.608.069-.608 1.003.07 1.531 1.032 1.531 1.032.892 1.53 2.341 1.088 2.91.832.092-.647.35-1.088.636-1.338-2.22-.253-4.555-1.113-4.555-4.951 0-1.093.39-1.988 1.029-2.688-.103-.253-.446-1.272.098-2.65 0 0 .84-.27 2.75 1.026A9.564 9.564 0 0112 6.844c.85.004 1.705.115 2.504.337 1.909-1.296 2.747-1.027 2.747-1.027.546 1.379.202 2.398.1 2.651.64.7 1.028 1.595 1.028 2.688 0 3.848-2.339 4.695-4.566 4.943.359.309.678.92.678 1.855 0 1.338-.012 2.419-.012 2.747 0 .268.18.58.688.482A10.019 10.019 0 0022 12.017C22 6.484 17.522 2 12 2z\" clipRule=\"evenodd\" />\n              </svg>\n            </Link>\n            <Link\n              href=\x7bLINKS.linkedin\x7d\n              target=\"_blank\"\n              rel=\"noopener noreferrer\"\n              className=\"group relative flex items-center justify-center w-10 h-10 rounded-full border border-zinc-300 dark:border-zinc-700 bg-white/50 dark:bg-zinc-900/50 backdrop-blur-sm text-zinc-600 dark:text-zinc-400 hover:text-blue-600 dark:hover:text-blue-400 hover:border-blue-400 dark:hover:border-blue-500 hover:bg-blue-50 dark:hover:bg-blue-900/20 transition-all duration-300 hover:scale-110 hover:shadow-lg\"\n              aria-label=\"LinkedIn\"\n            >\n              <svg className=\"w-5 h-5\" fill=\"currentColor\" viewBox=\"0 0 24 24\" aria-hidden=\"true\">\n                <path d=\"M20.447 20.452h-3.554v-5.569c0-1.328-.027-3.037-1.852-3.037-1.853 0-2.136 1.445-2.136 2.939v5.667H9.351V9h3.414v1.561h.046c.477-.9 1.637-1.85 3.37-1.85 3.601 0 4.267 2.37 4.267 5.455v6.286zM5.337 7.433c-1.144 0-2.063-.926-2.063-2.065 0-1.138.92-2.063 2.063-2.063 1.14 0 2.064.925 2.064 2.063 0 1.139-.925 2.065-2.064 2.065zm1.782 13.019H3.555V9h3.564v11.452zM22.225 0H1.771C.792 0 0 .774 0 1.729v20.542C0 23.227.792 24 1.771 24h20.451C23.2 24 24 23.227 24 22.271V1.729C24 .774 23.2 0 22.222 0h.003z\" />\n              </svg>\n            </Link>\n            <Link\n              href=\x7bLINKS.facebook\x7d\n              target=\"_blank\"\n              rel=\"noopener noreferrer\"\n              className=\"group relative flex items-center justify-center w-10 h-10 rounded-full border border-zinc-300 dark:border-zinc-700 bg-white/50 dark:bg-zinc-900/50 backdrop-blur-sm text-zinc-600 dark:text-zinc-400 hover:text-blue-600 dark:hover:text-blue-400 hover:border-blue-400 dark:hover:border-blue-500 hover:bg-blue-50 dark:hover:bg-blue-900/20 transition-all duration-300 hover:scale-110 hover:shadow-lg\"\n              aria-label=\"Facebook\"\n            >\n              <svg className=\"w-5 h-5\" fill=\"currentColor\" viewBox=\"0 0 24 24\" aria-hidden=\"true\">\n                <path fillRule=\"evenodd\" d=\"M22 12c0-5.523-4.477-10-10-10S2 6.477 2 12c0 4.991 3.657 9.128 8.438 9.878v-6.987h-2.54V12h2.54V9.797c0-2.506 1.492-3.89 3.777-3.89 1.094 0 2.238.195 2.238.195v2.46h-1.26c-1.243 0-1.63.771-1.63 1.562V12h2.773l-.443 2.89h-2.33v6.988C18.343 21.128 22 16.991 22 12z\" clipRule=\"evenodd\" />\n              </svg>\n            </Link>\n          </div>\n        </div>\n      </main>\n    </div>\n  );\n\x7d\n"

def content_src_styles_globals_css : String :=
  "@import \"tailwindcss\";\n@import \"tw-animate-css\";\n\n@custom-variant dark (&:is(.dark *));\n\n@theme inline \x7b\n  --color-background: var(--background);\n  --color-foreground: var(--foreground);\n  --font-sans: var(--font-geist-sans);\n  --font-mono: var(--font-geist-mono);\n  --color-sidebar-ring: var(--sidebar-ring);\n  --color-sidebar-border: var(--sidebar-border);\n  --color-sidebar-accent-foreground: var(--sidebar-accent-foreground);\n  --color-sidebar-accent: var(--sidebar-accent);\n  --color-sidebar-primary-foreground: var(--sidebar-primary-foreground);\n  --color-sidebar-primary: var(--sidebar-primary);\n  --color-sidebar-foreground: var(--sidebar-foreground);\n  --color-sidebar: var(--sidebar);\n  --color-chart-5: var(--chart-5);\n  --color-chart-4: var(--chart-4);\n  --color-chart-3: var(--chart-3);\n  --color-chart-2: var(--chart-2);\n  --color-chart-1: var(--chart-1);\n  --color-ring: var(--ring);\n  --color-input: var(--input);\n  --color-border: var(--border);\n  --color-destructive: var(--destructive);\n  --color-accent-foreground: var(--accent-foreground);\n  --color-accent: var(--accent);\n  --color-muted-foreground: var(--muted-foreground);\n  --color-muted: var(--muted);\n  --color-secondary-foreground: var(--secondary-foreground);\n  --color-secondary: var(--secondary);\n  --color-primary-foreground: var(--primary-foreground);\n  --color-primary: var(--primary);\n  --color-popover-foreground: var(--popover-foreground);\n  --color-popover: var(--popover);\n  --color-card-foreground: var(--card-foreground);\n  --color-card: var(--card);\n  --radius-sm: calc(var(--radius) - 4px);\n  --radius-md: calc(var(--radius) - 2px);\n  --radius-lg: var(--radius);\n  --radius-xl: calc(var(--radius) + 4px);\n  --radius-2xl: calc(var(--radius) + 8px);\n  --radius-3xl: calc(var(--radius) + 12px);\n  --radius-4xl: calc(var(--radius) + 16px);\n\x7d\n\n:root \x7b\n  --radius: 0.625rem;\n  --background: oklch(1 0 0);\n  --foreground: oklch(0.145 0 0);\n  --card: oklch(1 0 0);\n  --card-foreground: oklch(0.145 0 0);\n  --popover: oklch(1 0 0);\n  --popover-foreground: oklch(0.145 0 0);\n  --primary: oklch(0.205 0 0);\n  --primary-foreground: oklch(0.985 0 0);\n  --secondary: oklch(0.97 0 0);\n  --secondary-foreground: oklch(0.205 0 0);\n  --muted: oklch(0.97 0 0);\n  --muted-foreground: oklch(0.556 0 0);\n  --accent: oklch(0.97 0 0);\n  --accent-foreground: oklch(0.205 0 0);\n  --destructive: oklch(0.577 0.245 27.325);\n  --border: oklch(0.922 0 0);\n  --input: oklch(0.922 0 0);\n  --ring: oklch(0.708 0 0);\n  --chart-1: oklch(0.646 0.222 41.116);\n  --chart-2: oklch(0.6 0.118 184.704);\n  --chart-3: oklch(0.398 0.07 227.392);\n  --chart-4: oklch(0.828 0.189 84.429);\n  --chart-5: oklch(0.769 0.188 70.08);\n  --sidebar: oklch(0.985 0 0);\n  --sidebar-foreground: oklch(0.145 0 0);\n  --sidebar-primary: oklch(0.205 0 0);\n  --sidebar-primary-foreground: oklch(0.985 0 0);\n  --sidebar-accent: oklch(0.97 0 0);\n  --sidebar-accent-foreground: oklch(0.205 0 0);\n  --sidebar-border: oklch(0.922 0 0);\n  --sidebar-ring: oklch(0.708 0 0);\n\x7d\n\n.dark \x7b\n  --background: oklch(0.145 0 0);\n  --foreground: oklch(0.985 0 0);\n  --card: oklch(0.205 0 0);\n  --card-foreground: oklch(0.985 0 0);\n  --popover: oklch(0.205 0 0);\n  --popover-foreground: oklch(0.985 0 0);\n  --primary: oklch(0.922 0 0);\n  --primary-foreground: oklch(0.205 0 0);\n  --secondary: oklch(0.269 0 0);\n  --secondary-foreground: oklch(0.985 0 0);\n  --muted: oklch(0.269 0 0);\n  --muted-foreground: oklch(0.708 0 0);\n  --accent: oklch(0.269 0 0);\n  --accent-foreground: oklch(0.985 0 0);\n  --destructive: oklch(0.704 0.191 22.216);\n  --border: oklch(1 0 0 / 10%);\n  --input: oklch(1 0 0 / 15%);\n  --ring: oklch(0.556 0 0);\n  --chart-1: oklch(0.488 0.243 264.376);\n  --chart-2: oklch(0.696 0.17 162.48);\n  --chart-3: oklch(0.769 0.188 70.08);\n  --chart-4: oklch(0.627 0.265 303.9);\n  --chart-5: oklch(0.645 0.246 16.439);\n  --sidebar: oklch(0.205 0 0);\n  --sidebar-foreground: oklch(0.985 0 0);\n  --sidebar-primary: oklch(0.488 0.243 264.376);\n  --sidebar-primary-foreground: oklch(0.985 0 0);\n  --sidebar-accent: oklch(0.269 0 0);\n  --sidebar-accent-foreground: oklch(0.985 0 0);\n  --sidebar-border: oklch(1 0 0 / 10%);\n  --sidebar-ring: oklch(0.556 0 0);\n\x7d\n\n@layer base \x7b\n  * \x7b\n    @apply border-border outline-ring/50;\n  \x7d\n  body \x7b\n    @apply bg-background text-foreground;\n  \x7d\n\x7d\n"

def content_src_config_routes_ts : String :=
  "// Route configuration\nexport const routes = \x7b\n  home: \x27/\x27,\n  // Add your routes here\n\x7d;\n"

def content_src_config__env_example : String :=
  "\x23 Backend API URL\nNEXT_PUBLIC_BACKEND_URL=http://localhost:3001\n\n\x23 Cookie header name for authentication\nNEXT_PUBLIC_COOKIES_HEADER=my-token-header\n"

def content_src_proxy_ts : String :=
  "import \x7b NextRequest, NextResponse \x7d from \"next/server\";\nimport \x7b checkTokenExpiration \x7d from \"./shared/utils/checkTokenExpiration\";\n\nconst publicRoutes = [\"/login\", \"/register\", \"/forgot-password\", \"/processing\"];\nconst cookieHeader = process.env.NEXT_PUBLIC_COOKIES_HEADER || \"my-token-header\"\n\nexport function proxy(request: NextRequest) \x7b\n  const \x7b pathname \x7d = request.nextUrl;\n\n  const sessionData = request.cookies.get(cookieHeader);\n  const isTokenExpired = checkTokenExpiration(sessionData?.value || \"\");\n  const hasValidSession = sessionData?.value && !isTokenExpired;\n\n  // If user has valid session and tries to access public routes, redirect to home\n  if (publicRoutes.includes(pathname)) \x7b\n    if (hasValidSession) \x7b\n      const homeUrl = new URL(\"/\", request.url);\n      return NextResponse.redirect(homeUrl);\n    \x7d\n    return NextResponse.next();\n  \x7d\n\n  // Protected routes - require valid session\n  if (!hasValidSession) \x7b\n    const loginUrl = new URL(\"/login\", request.url);\n    return NextResponse.redirect(loginUrl);\n  \x7d\n\n  return NextResponse.next();\n\x7d\n\nexport const config = \x7b\n  matcher: [\"/((?!_next/static|_next/image|favicon.ico|api).*)\"],\n\x7d;\n"

def content_src_shared_components_CodeBlock_tsx : String :=
  "\x27use client\x27\n\nimport \x7b useState \x7d from \x27react\x27\n\ninterface CodeBlockProps \x7b\n  command: string\n  className?: string\n\x7d\n\nexport default function CodeBlock(\x7b command, className = \x27\x27 \x7d: CodeBlockProps) \x7b\n  const [copied, setCopied] = useState(false)\n\n  const handleCopy = async (e?: React.MouseEvent) => \x7b\n    if (e) \x7b\n      e.stopPropagation()\n    \x7d\n    try \x7b\n      await navigator.clipboard.writeText(command)\n      setCopied(true)\n      setTimeout(() => setCopied(false), 2000)\n    \x7d catch (err) \x7b\n      console.error(\x27Failed to copy:\x27, err)\n    \x7d\n  \x7d\n\n  return (\n    <div\n      className=\x7b\x60group relative flex items-center $\x7bclassName\x7d\x60\x7d\n    >\n      <code\n        className=\"relative flex items-center w-full justify-between text-sm text-nowrap transition-colors cursor-pointer\"\n        onClick=\x7bhandleCopy\x7d\n      >\n        <div className=\"text-zinc-500\">$ <span className=\x27text-zinc-100 font-mono hover:text-white\x27>\x7bcommand\x7d</span></div>\n        <button\n          className=\"opacity-0 group-hover:opacity-100 transition-all duration-200 flex items-center gap-1.5 px-2.5 py-1 rounded-md bg-zinc-800/90 hover:bg-zinc-700/90 backdrop-blur-sm border border-zinc-700/50 hover:border-zinc-600 text-zinc-300 hover:text-white text-xs font-medium shadow-lg hover:shadow-xl hover:scale-105 z-10\"\n          onClick=\x7bhandleCopy\x7d\n          aria-label=\"Copy command\"\n          title=\"Click to copy\"\n        >\n          \x7bcopied ? (\n            <>\n              <svg className=\"w-3.5 h-3.5 text-green-400\" fill=\"none\" stroke=\"currentColor\" viewBox=\"0 0 24 24\">\n                <path strokeLinecap=\"round\" strokeLinejoin=\"round\" strokeWidth=\x7b2\x7d d=\"M5 13l4 4L19 7\" />\n              </svg>\n              <span className=\"text-green-400 font-semibold\">Copied!</span>\n            </>\n          ) : (\n            <>\n              <svg className=\"w-3.5 h-3.5\" fill=\"none\" stroke=\"currentColor\" viewBox=\"0 0 24 24\">\n                <path strokeLinecap=\"round\" strokeLinejoin=\"round\" strokeWidth=\x7b2\x7d d=\"M8 16H6a2 2 0 01-2-2V6a2 2 0 012-2h8a2 2 0 012 2v2m-6 12h8a2 2 0 002-2v-8a2 2 0 00-2-2h-8a2 2 0 00-2 2v8a2 2 0 002 2z\" />\n              </svg>\n              <span>Copy</span>\n            </>\n          )\x7d\n        </button>\n      </code>\n    </div>\n  )\n\x7d\n"

def content_src_shared_libs_utils_ts : String :=
  "import \x7b clsx, type ClassValue \x7d from \"clsx\"\nimport \x7b twMerge \x7d from \"tailwind-merge\"\n\nexport function cn(...inputs: ClassValue[]) \x7b\n  return twMerge(clsx(inputs))\n\x7d\n"

def content_src_shared_libs_api_service_ts : String :=
  "interface ApiResponse<T> \x7b\n  response: number;\n  success: string;\n  error: string | null;\n  data: T;\n\x7d\nconst defaultHeaders: Record<string, string> = \x7b\n  \"Content-Type\": \"application/json\",\n\x7d;\nasync function parseResponse<T>(res: Response): Promise<ApiResponse<T>> \x7b\n  return res.json();\n\x7d\nasync function request<T>(\n  url: string,\n  options?: RequestInit,\n): Promise<ApiResponse<T>> \x7b\n  const res = await fetch(url, \x7b\n    headers: defaultHeaders,\n    credentials: \"include\",\n    ...options,\n  \x7d);\n  if (!res.ok && res.status === 401 && typeof window !== \"undefined\") \x7b\n    window.location.href = \"/login\";\n  \x7d\n  if (!res.ok) \x7b\n    const errorData = await parseResponse<T>(res);\n    throw errorData;\n  \x7d\n  return parseResponse<T>(res);\n\x7d\nexport const api = \x7b\n  get: <T>(url: string) => request<T>(url, \x7b method: \"GET\" \x7d),\n  post: <T>(url: string, body?: unknown) =>\n    request<T>(url, \x7b method: \"POST\", body: JSON.stringify(body) \x7d),\n  put: <T>(url: string, body?: unknown) =>\n    request<T>(url, \x7b method: \"PUT\", body: JSON.stringify(body) \x7d),\n  patch: <T>(url: string, body?: unknown) =>\n    request<T>(url, \x7b method: \"PATCH\", body: JSON.stringify(body) \x7d),\n  delete: <T>(url: string) => request<T>(url, \x7b method: \"DELETE\" \x7d),\n\x7d;\n"

def content_src_shared_hooks_useFormWithZod_ts : String :=
  "import \x7b useForm, FieldValues \x7d from \"react-hook-form\";\nimport \x7b zodResolver \x7d from \"@hookform/resolvers/zod\";\nimport \x7b z \x7d from \"zod\";\n\nexport function useFormWithZod<T extends FieldValues>(\n  schema: z.ZodSchema<T>\n) \x7b\n  return useForm<T>(\x7b\n    // @ts-expect-error - zodResolver type incompatibility with Zod v4\n    resolver: zodResolver(schema),\n  \x7d);\n\x7d\n"

def content_src_shared_utils_checkTokenExpiration_ts : String :=
  "export const checkTokenExpiration = (token: string) => \x7b\n  if (!token) return false;\n  // Your logic to check token expiration\n  return true\n\x7d;\n"

def content_src_features_auth_auth_type_ts : String :=
  "export interface LoginPayload \x7b\n  email: string;\n  password: string;\n\x7d\n\nexport interface SignupPayload \x7b\n  name: string;\n  email: string;\n  password: string;\n\x7d\n"

def content_src_features_auth_auth_api_ts : String :=
  "import \x7b api \x7d from \"@/shared/libs/api.service\";\nimport \x7b LoginPayload, SignupPayload \x7d from \"./auth.type\";\n\nexport const authApi = \x7b\n  login: (body: LoginPayload) => api.post(\"/login\", body),\n  signup: (body: SignupPayload) => api.post(\"/signup\", body),\n\x7d;\n"

def content_src_features_auth_auth_service_ts : String :=
  "import \x7b LoginPayload, SignupPayload \x7d from \"./auth.type\";\nimport * as api from \"./auth.api\";\nimport \x7b loginSchema, signupSchema \x7d from \"./auth.validation\";\n\nexport const authSevice = \x7b\n  async login(payload: LoginPayload) \x7b\n    loginSchema.parse(payload);\n    return api.authApi.login(payload);\n  \x7d,\n\n  async signup(payload: SignupPayload) \x7b\n    signupSchema.parse(payload);\n    return api.authApi.signup(payload);\n  \x7d,\n\x7d;\n"

def content_src_features_auth_auth_validation_ts : String :=
  "import \x7b z \x7d from \"zod\";\n\n// Login\nexport const loginSchema = z.object(\x7b\n  email: z.string().email(),\n  password: z.string().min(5).max(30),\n\x7d);\n\nexport type LoginSchemaT = z.infer<typeof loginSchema>;\n\n// Signup\nexport const signupSchema = z.object(\x7b\n  name: z.string(),\n  email: z.string().email(),\n  password: z.string().min(5).max(30),\n\x7d);\n\nexport type SignupSchemaT = z.infer<typeof signupSchema>;\n"

def content_src_features_auth_auth_store_ts : String :=
  "// Auth store - add your state management logic here\n"

def content_src_features_auth_hooks_useAuth_ts : String :=
  "import \x7b useMutation, useQueryClient \x7d from \"@tanstack/react-query\";\nimport \x7b authSevice \x7d from \"../auth.service\";\n\nexport const useAuth = () => \x7b\n  const queryClient = useQueryClient();\n\n  const loginMutation = useMutation(\x7b\n    mutationFn: authSevice.login,\n    onSuccess: () => \x7b\n      queryClient.invalidateQueries(\x7b queryKey: [\"user\"] \x7d);\n    \x7d\n  \x7d)\n\n  const signupMutation = useMutation(\x7b\n    mutationFn: authSevice.signup,\n    onSuccess: () => \x7b\n      queryClient.invalidateQueries(\x7b queryKey: [\"user\"] \x7d);\n    \x7d\n  \x7d)\n\n  return \x7b\n    loginMutation,\n    signupMutation,\n  \x7d\n\x7d;\n"

def content_src_features_auth_components_LoginForm_tsx : String :=
  "// LoginForm component - add your login form implementation here\nexport default function LoginForm() \x7b\n  return (\n    <div>\n      \x7b/* Add your login form here */\x7d\n    </div>\n  );\n\x7d\n"

def content__gitignore : String :=
  "\x23 See https://help.github.com/articles/ignoring-files/ for more about ignoring files.\n\n\x23 dependencies\n/node_modules\n/.pnp\n.pnp.js\n\n\x23 testing\n/coverage\n\n\x23 next.js\n/.next/\n/out/\n\n\x23 production\n/build\n\n\x23 misc\n.DS_Store\n*.pem\n\n\x23 debug\nnpm-debug.log*\nyarn-debug.log*\nyarn-error.log*\n\n\x23 env files (can opt-in for committing if needed)\n.env\n.env.development.local\n.env.test.local\n.env.production.local\n.env.local\n.env.development\n.env.test\n.env.production\n\n\x23 vercel\n.vercel\n\n\x23 typescript\n*.tsbuildinfo\nnext-env.d.ts\n"

def content_next_env_d_ts : String :=
  "/// <reference types=\"next\" />\n/// <reference types=\"next/image-types/global\" />\n\n// NOTE: This file should not be edited\n// see https://nextjs.org/docs/basic-features/typescript for more information.\n"

/-- The full manifest list of getProjectStructure (paths and contents in
    source order), after the install/dev command derivation. -/
def manifestEntries (projectName installCmd devCmd : String) : List FileEntry :=
  [⟨"package.json", packageJsonContent projectName⟩,
    ⟨"tsconfig.json", tsconfigContent⟩,
    ⟨"next.config.ts", content_next_config_ts⟩,
    ⟨"eslint.config.mjs", content_eslint_config_mjs⟩,
    ⟨"postcss.config.mjs", content_postcss_config_mjs⟩,
    ⟨"README.md", readmeContent projectName installCmd devCmd⟩,
    ⟨"src/app/layout.tsx", content_src_app_layout_tsx⟩,
    ⟨"src/app/providers.tsx", content_src_app_providers_tsx⟩,
    ⟨"src/app/page.tsx", content_src_app_page_tsx⟩,
    ⟨"src/styles/globals.css", content_src_styles_globals_css⟩,
    ⟨"src/config/routes.ts", content_src_config_routes_ts⟩,
    ⟨"src/config/.env.example", content_src_config__env_example⟩,
    ⟨"src/proxy.ts", content_src_proxy_ts⟩,
    ⟨"src/shared/components/CodeBlock.tsx", content_src_shared_components_CodeBlock_tsx⟩,
    ⟨"src/shared/libs/utils.ts", content_src_shared_libs_utils_ts⟩,
    ⟨"src/shared/libs/api.service.ts", content_src_shared_libs_api_service_ts⟩,
    ⟨"src/shared/hooks/useFormWithZod.ts", content_src_shared_hooks_useFormWithZod_ts⟩,
    ⟨"src/shared/utils/checkTokenExpiration.ts", content_src_shared_utils_checkTokenExpiration_ts⟩,
    ⟨"src/features/auth/auth.type.ts", content_src_features_auth_auth_type_ts⟩,
    ⟨"src/features/auth/auth.api.ts", content_src_features_auth_auth_api_ts⟩,
    ⟨"src/features/auth/auth.service.ts", content_src_features_auth_auth_service_ts⟩,
    ⟨"src/features/auth/auth.validation.ts", content_src_features_auth_auth_validation_ts⟩,
    ⟨"src/features/auth/auth.store.ts", content_src_features_auth_auth_store_ts⟩,
    ⟨"src/features/auth/hooks/useAuth.ts", content_src_features_auth_hooks_useAuth_ts⟩,
    ⟨"src/features/auth/components/LoginForm.tsx", content_src_features_auth_components_LoginForm_tsx⟩,
    ⟨".gitignore", content__gitignore⟩,
    ⟨"next-env.d.ts", content_next_env_d_ts⟩ ]
/-- Model of `getProjectStructure`: derive the two command strings from the
package manager, then return the manifest list. -/
def getProjectStructure (v : TemplateVariables) : List FileEntry :=
  manifestEntries v.projectName (installCmdOf v.packageManager) (devCmdOf v.packageManager)

/-- The manifest paths, in source order. -/
def manifestPaths : List String :=
  ["package.json", "tsconfig.json", "next.config.ts", "eslint.config.mjs",
   "postcss.config.mjs", "README.md", "src/app/layout.tsx", "src/app/providers.tsx",
   "src/app/page.tsx", "src/styles/globals.css", "src/config/routes.ts",
   "src/config/.env.example", "src/proxy.ts", "src/shared/components/CodeBlock.tsx",
   "src/shared/libs/utils.ts", "src/shared/libs/api.service.ts",
   "src/shared/hooks/useFormWithZod.ts", "src/shared/utils/checkTokenExpiration.ts",
   "src/features/auth/auth.type.ts", "src/features/auth/auth.api.ts",
   "src/features/auth/auth.service.ts", "src/features/auth/auth.validation.ts",
   "src/features/auth/auth.store.ts", "src/features/auth/hooks/useAuth.ts",
   "src/features/auth/components/LoginForm.tsx", ".gitignore", "next-env.d.ts"]

/-- The content of the manifest entry at a given path, if any (first match,
like a lookup in the generated tree). -/
def findEntry (entries : List FileEntry) (p : String) : Option String :=
  (entries.find? (fun e => e.path == p)).map FileEntry.content

/-! ## Filesystem model -/

/-- A filesystem node: a regular file with its full text content, or a
directory. -/
inductive Node
  | file (content : String)
  | dir
deriving DecidableEq, Repr

/-- A directory subtree as an association list from slash-separated relative
paths to nodes.  The most recent write is at the head, so `lookupFS` finds it
first; this realizes `writeFileSync`/`copySync` overwrite semantics. -/
abbrev FS := List (String × Node)

/-- Look a path up in a subtree (most recent binding wins). -/
def lookupFS : FS → String → Option Node
  | [], _ => none
  | (q, n) :: rest, p => if q = p then some n else lookupFS rest p

/-- Model of `writeFileSync`: (over)write a file. -/
def writeFile (fs : FS) (p : String) (c : String) : FS :=
  (p, Node.file c) :: fs

/-- Create one directory if nothing exists at its path (`ensureDirSync` is a
no-op on an existing directory). -/
def mkDirIfAbsent (fs : FS) (p : String) : FS :=
  match lookupFS fs p with
  | some _ => fs
  | none => (p, Node.dir) :: fs

/-- Split a character list at every slash (the semantics of splitOn with the
one-character separator "/", written structurally so that it reduces inside
the kernel). -/
def splitSlashAux : List Char → List (List Char)
  | [] => [[]]
  | c :: rest =>
      match splitSlashAux rest with
      | [] => [[c]]
      | h :: t => if c = '/' then [] :: h :: t else (c :: h) :: t

/-- The components of a slash-separated path (splitOn with separator "/"). -/
def splitComponents (p : String) : List String :=
  (splitSlashAux p.data).map String.mk

/-- All ancestor paths of a relative path, shortest first:
`"a/b/c" ↦ ["a", "a/b", "a/b/c"]`. -/
def ancestorPaths (p : String) : List String :=
  let cs := splitComponents p
  (List.range cs.length).map (fun i => joinPath (cs.take (i + 1)))

/-- Model of `ensureDirSync`: create the directory and every missing ancestor. -/
def ensureDir (fs : FS) (p : String) : FS :=
  (ancestorPaths p).foldl mkDirIfAbsent fs

/-- Model of `path.dirname` on a relative path; `"."` for a top-level name. -/
def dirOf (p : String) : String :=
  let cs := (splitComponents p).dropLast
  if cs.isEmpty then "." else joinPath cs

/-- Model of `ensureDirSync(dirname(filePath))` before a write; the target root
(`"."` in target-relative terms) always exists, so that case is a no-op. -/
def ensureParent (fs : FS) (p : String) : FS :=
  if dirOf p = "." then fs else ensureDir fs (dirOf p)

/-- Write one manifest entry: create its parent directories, then write the
file. -/
def writeEntry (fs : FS) (e : FileEntry) : FS :=
  writeFile (ensureParent fs e.path) e.path e.content

/-! ## src/utils/fileGenerator.ts — materialization -/

/-- The `emptyDirs` list of `createProjectStructure`, in source order. -/
def emptyDirs : List String :=
  ["src/shared/constants", "src/shared/types", "src/shared/components/shadcnUi",
   "src/stores", "src/tests/e2e", "src/tests/unit"]

/-- One iteration of the `emptyDirs` loop: create the directory and write a
`.gitkeep` placeholder inside it. -/
def gitkeepStep (fs : FS) (d : String) : FS :=
  writeFile (ensureDir fs d) (d ++ "/.gitkeep") ""

/-- Model of `createProjectStructure` on the subtree rooted at
the target: the `emptyDirs` loop, the extra `public` directory, then every
manifest entry. -/
def createProjectStructureFS (fs : FS) (v : TemplateVariables) : FS :=
  let fs1 := emptyDirs.foldl gitkeepStep fs
  let fs2 := ensureDir fs1 "public"
  (getProjectStructure v).foldl writeEntry fs2

/-- The `copySync` filter in `copyTemplates`: the source path must not
include (as a substring) any of node_modules, .git, dist; it is applied to
the full source path string. -/
def copyFilter (src : String) : Bool :=
  !strIncludes src "node_modules" && !strIncludes src ".git" && !strIncludes src "dist"

/-- The exclusion rule as the specification words it: a path is excluded iff
some path component is exactly one of the three directory names. -/
def specComponentExcluded (comps : List String) : Bool :=
  comps.contains "node_modules" || comps.contains ".git" || comps.contains "dist"

/-- Model of `copyTemplates` on the subtree
rooted at the target.  `templates` holds the entries of the template directory
(paths relative to `templatesPath`) when that directory exists, `none`
otherwise.  The `copySync` filter receives absolute source paths, modelled as
`templatesPath ++ "/" ++ relative path`; an entry is copied iff its path
passes the filter (the filter is monotone under path extension, so pruning a
subtree of a filtered directory coincides with filtering each entry). -/
def copyTemplatesFS (templatesPath : String) (templates : Option FS) (target : FS)
    (v : TemplateVariables) : FS :=
  match templates with
  | some t =>
      t.foldl (fun acc e =>
        if copyFilter (templatesPath ++ "/" ++ e.1) then (e.1, e.2) :: acc else acc) target
  | none => createProjectStructureFS target v

/-! ## src/utils/fileGenerator.ts — substitution pass -/

/-- Nonempty-pattern global replacement on character lists, structural in a
fuel argument (fuel ≥ input length suffices, each step consumes at least one
character).  This is JS `String.replace` with a `/g` literal-pattern regex:
non-overlapping matches, left to right. -/
def replaceFuel (pat rep : List Char) : Nat → List Char → List Char
  | _, [] => []
  | 0, l => l
  | fuel + 1, c :: rest =>
      if pat.isPrefixOf (c :: rest) then
        rep ++ replaceFuel pat rep fuel (rest.drop (pat.length - 1))
      else c :: replaceFuel pat rep fuel rest

/-- Global literal replacement on strings (the patterns used by this program
are nonempty; an empty pattern is returned unchanged). -/
def replaceAllStr (s pat rep : String) : String :=
  match pat.data with
  | [] => s
  | _ :: _ => String.mk (replaceFuel pat.data rep.data s.data.length s.data)

/-- The project-name placeholder token: projectName in doubled braces. -/
def projectNameToken : String := "\x7b\x7bprojectName\x7d\x7d"

/-- The package-manager placeholder token: packageManager in doubled braces. -/
def packageManagerToken : String := "\x7b\x7bpackageManager\x7d\x7d"

/-- Model of `generateFiles` on the target-rooted subtree.
In `package.json` only the project-name token is replaced; in `README.md`
the project-name token is replaced and then the package-manager token.
A targeted path that is absent is skipped.  (`readFileSync` on a directory
node would throw in the real code; no run in this development reaches that
case.) -/
def generateFilesFS (fs : FS) (v : TemplateVariables) : FS :=
  let fs1 :=
    match lookupFS fs "package.json" with
    | some (Node.file c) =>
        writeFile fs "package.json" (replaceAllStr c projectNameToken v.projectName)
    | _ => fs
  match lookupFS fs1 "README.md" with
  | some (Node.file c) =>
      writeFile fs1 "README.md"
        (replaceAllStr (replaceAllStr c projectNameToken v.projectName)
          packageManagerToken v.packageManager)
  | _ => fs1

/-! ## src/createProject.ts — orchestrator -/

/-- The `CreateProjectOptions` record (defaults already applied). -/
structure CreateProjectOptions where
  projectName : String
  packageManager : String
  skipPrompts : Bool
  autoInstall : Bool
deriving DecidableEq, Repr

/-- How one run ends: the user declined the overwrite confirmation, or the
run completed (recording whether the install subprocess was attempted and
whether it failed). -/
inductive Outcome
  | cancelled
  | completed (installAttempted installFailed : Bool)
deriving DecidableEq, Repr

/-- Observable result of one `createProject` run: the target-directory
subtree afterwards (`none` = the directory does not exist), the outcome, the
manual-remediation line printed when the install fails, and the final
next-steps lines. -/
structure RunResult where
  target : Option FS
  outcome : Outcome
  installHelp : Option String
  nextSteps : List String
deriving DecidableEq, Repr

/-- JS template-literal interpolation of a possibly-`undefined` string. -/
def jsShow : Option String → String
  | some s => s
  | none => "undefined"

/-- Model of `createProject`.  Environment inputs: the pre-existing target
subtree (`none` if the directory is absent), the interactive overwrite
answer, the templates directory (with its path string; `none` when
`<dist>/../templates` does not exist), and booleans saying whether the
materialization phase, the substitution phase and the install subprocess
succeed.  A failing materialization or substitution phase throws
(`Except.error`), matching the try/catch that rethrows in the source; a
failing install is caught internally and only downgraded to a warning. -/
def createProjectBody (templatesPath : String) (templates : Option FS)
    (materializeOk substituteOk installOk : Bool)
    (o : CreateProjectOptions) : Except String RunResult :=
  if materializeOk = false then Except.error "materialize" else
  let v : TemplateVariables := ⟨o.projectName, o.packageManager⟩
  let tree1 := copyTemplatesFS templatesPath templates [] v
  if substituteOk = false then Except.error "substitute" else
  let tree2 := generateFilesFS tree1 v
  if o.autoInstall then
    if installOk then
      Except.ok ⟨some tree2, Outcome.completed true false, none,
        ["  cd " ++ o.projectName,
         "  " ++ jsShow (getRunCommand o.packageManager "dev") ++ "\n"]⟩
    else
      Except.ok ⟨some tree2, Outcome.completed true true,
        some ("  Run: " ++ jsShow (getInstallCommand o.packageManager)),
        ["  cd " ++ o.projectName,
         "  " ++ jsShow (getRunCommand o.packageManager "dev") ++ "\n"]⟩
  else
    Except.ok ⟨some tree2, Outcome.completed false false, none,
      ["  cd " ++ o.projectName,
       "  " ++ jsShow (getInstallCommand o.packageManager),
       "  " ++ jsShow (getRunCommand o.packageManager "dev") ++ "\n"]⟩

/-- The existing-directory check in front of `createProjectBody`: with the
directory present, no skip flag and a declining answer, the run returns
early; in every other case the pre-existing directory (if any) is removed
and the body runs against a fresh target. -/
def createProjectRun (existing : Option FS) (overwriteAnswer : Bool)
    (templatesPath : String) (templates : Option FS)
    (materializeOk substituteOk installOk : Bool)
    (o : CreateProjectOptions) : Except String RunResult :=
  match existing with
  | some d =>
      if !o.skipPrompts && !overwriteAnswer then
        Except.ok ⟨some d, Outcome.cancelled, none, []⟩
      else createProjectBody templatesPath templates materializeOk substituteOk installOk o
  | none => createProjectBody templatesPath templates materializeOk substituteOk installOk o

/-- Process exit code of one CLI invocation: the catch handler of the entry point
calls `process.exit(1)` on a thrown error; otherwise the process terminates
normally with 0. -/
def actionExitCode : Except String RunResult → Nat
  | Except.error _ => 1
  | Except.ok _ => 0

/-! ## src/index.ts — CLI option resolution -/

/-- The flags commander hands to `program.action`; `packageManager` is the
raw flag string when present (commander does not validate its value). -/
structure CliOptions where
  packageManager : Option String
  yes : Bool
deriving DecidableEq, Repr

/-- The package-manager resolution of `program.action`: with the yes flag,
take the flag, falling back to npm when it is falsy (the TS cast is erased at
runtime, and the fallback only catches falsy values); otherwise the flag if it is
truthy, else the interactive prompt answer. -/
def resolvePackageManager (opts : CliOptions) (promptAnswer : String) : String :=
  match opts.packageManager with
  | some p => if p = "" then (if opts.yes then "npm" else promptAnswer) else p
  | none => if opts.yes then "npm" else promptAnswer

/-- The project-name resolution of `program.action`; `promptName` is the
validated, trimmed interactive answer. -/
def resolveProjectName (arg : Option String) (yes : Bool) (promptName : String) : String :=
  match arg with
  | some n => if n = "" then (if yes then "my-nextjs-app" else promptName) else n
  | none => if yes then "my-nextjs-app" else promptName

/-- The `CreateProjectOptions` record `program.action` builds:
`skipPrompts := options.yes || false`, `autoInstall := !options.yes`. -/
def actionOptions (arg : Option String) (opts : CliOptions)
    (promptPm promptName : String) : CreateProjectOptions :=
  { projectName := resolveProjectName arg opts.yes promptName
    packageManager := resolvePackageManager opts promptPm
    skipPrompts := opts.yes
    autoInstall := !opts.yes }

/-- One character of the project-name validation regex `/^[a-z0-9-]+$/i`
(letters of either case, digits, hyphen — written with character codes:
97–122 = a–z, 65–90 = A–Z, 48–57 = 0–9, 45 = hyphen). -/
def validNameChar (c : Char) : Bool :=
  decide ((97 ≤ c.toNat ∧ c.toNat ≤ 122) ∨ (65 ≤ c.toNat ∧ c.toNat ≤ 90) ∨
    (48 ≤ c.toNat ∧ c.toNat ≤ 57) ∨ c.toNat = 45)

/-- The interactive prompt validation of the project name: non-empty and matching
`/^[a-z0-9-]+$/i`. -/
def validProjectName (s : String) : Bool :=
  !s.data.isEmpty && s.data.all validNameChar
/-- A concrete final state used by the materialization proofs: the filesystem
after the `emptyDirs` loop and the `public` directory, starting from an empty
target. -/
def phase12 : FS :=
  ensureDir (emptyDirs.foldl gitkeepStep []) "public"

/-! ## Helper lemmas -/

theorem isPrefixOf_append_self (p q : List Char) : p.isPrefixOf (p ++ q) = true := by
  induction p with
  | nil => simp
  | cons c t ih => simp [List.isPrefixOf, ih]

theorem append_left_ne_empty (a b : String) (h : a.data ≠ []) : a ++ b ≠ "" := by
  intro he
  have hd := congrArg String.data he
  have h0 : ("" : String).data = [] := rfl
  rw [String.data_append, h0] at hd
  exact h (List.append_eq_nil.mp hd).1

theorem segOccurs_append (a b pat : List Char) (h : pat.isPrefixOf b = true) :
    segOccurs (a ++ b) pat = true := by
  induction a with
  | nil =>
    cases b with
    | nil =>
      cases pat with
      | nil => rfl
      | cons c t => simp [List.isPrefixOf] at h
    | cons x xs => simp [segOccurs, h]
  | cons c t ih => simp [segOccurs, ih]

theorem segOccurs_decomp (x pat z L : List Char) (h : L = x ++ (pat ++ z)) :
    segOccurs L pat = true := by
  subst h
  exact segOccurs_append x _ pat (isPrefixOf_append_self pat z)

theorem strIncludes_of_data (s pat : String) (x z : List Char)
    (h : s.data = x ++ (pat.data ++ z)) : strIncludes s pat = true :=
  segOccurs_decomp x pat.data z s.data h

theorem joinPath_mem_decomp (c : String) (comps : List String) (h : c ∈ comps) :
    ∃ x z, (joinPath comps).data = x ++ (c.data ++ z) := by
  induction comps with
  | nil => cases h
  | cons a rest ih =>
    cases rest with
    | nil =>
      have hc : c = a := by
        cases h with
        | head => rfl
        | tail _ h2 => cases h2
      subst hc
      exact ⟨[], [], by simp [joinPath]⟩
    | cons b bs =>
      cases h with
      | head =>
        refine ⟨[], ("/".data ++ (joinPath (b :: bs)).data), ?_⟩
        simp [joinPath, String.data_append]
      | tail _ h2 =>
        obtain ⟨x, z, hx⟩ := ih h2
        refine ⟨a.data ++ "/".data ++ x, z, ?_⟩
        simp [joinPath, String.data_append, hx]

/-! ## Claim C1 -/

/-- C1, counterexample: for the unrecognized package-manager value "deno"
passed via flag, no configuration error is raised — the value flows through
the CLI boundary unchanged — and the manifest-provider command derivation
silently maps it to the bun command strings via its fallback branch. -/
theorem C1_counterexample :
    resolvePackageManager ⟨some "deno", true⟩ "npm" = "deno" ∧
    resolvePackageManager ⟨some "deno", false⟩ "npm" = "deno" ∧
    installCmdOf "deno" = "bun install" ∧
    devCmdOf "deno" = "bun run dev" ∧
    installCmdOf "deno" = installCmdOf "bun" := by
  decide

/-- C1, amended: the program performs no runtime validation of the
package-manager flag.  A non-empty value other than npm, pnpm and yarn is
passed through option resolution unchanged (in both the yes-flag and the
interactive path), and the install/dev command derivation of the Manifest
Provider maps it to the bun command strings through its unconditional final
branch; no configuration error is raised at any boundary. -/
theorem C1_no_validation_fallback (p : String) (h0 : p ≠ "") (h1 : p ≠ "npm")
    (h2 : p ≠ "pnpm") (h3 : p ≠ "yarn") :
    resolvePackageManager ⟨some p, true⟩ "npm" = p ∧
    resolvePackageManager ⟨some p, false⟩ "npm" = p ∧
    installCmdOf p = "bun install" ∧
    devCmdOf p = "bun run dev" := by
  simp [resolvePackageManager, installCmdOf, devCmdOf, h0, h1, h2, h3]

/-- C1, witness for the amended theorem at the concrete flag value "deno". -/
theorem C1_witness :
    resolvePackageManager ⟨some "deno", true⟩ "npm" = "deno" :=
  (C1_no_validation_fallback "deno" (by decide) (by decide) (by decide) (by decide)).1

/-! ## Claim C2 -/

/-- C2, counterexample: the path `templates/.gitignore` has no component
equal to node_modules, .git or dist (the spec-side component rule does not
exclude it), yet the filter excludes it, because the filter tests substring
containment on the whole path string and `.gitignore` contains `.git`.
So the filter does not copy every path that lacks such a component. -/
theorem C2_counterexample :
    specComponentExcluded ["templates", ".gitignore"] = false ∧
    copyFilter (joinPath ["templates", ".gitignore"]) = false := by
  decide

/-- C2, amended: one direction of the claim holds — every path having a
component equal to node_modules, .git or dist is excluded by the copy
filter — but the filter is substring-based on the full path string, so it
additionally excludes paths with no such component whenever one of the three
names occurs as a substring anywhere in the path. -/
theorem C2_component_exclusion (comps : List String)
    (h : "node_modules" ∈ comps ∨ ".git" ∈ comps ∨ "dist" ∈ comps) :
    copyFilter (joinPath comps) = false := by
  have key : ∀ pat : String, pat ∈ comps → strIncludes (joinPath comps) pat = true := by
    intro pat hm
    obtain ⟨x, z, hx⟩ := joinPath_mem_decomp pat comps hm
    exact strIncludes_of_data _ _ x z hx
  rcases h with h | h | h
  · simp [copyFilter, key _ h]
  · simp [copyFilter, key _ h]
  · simp [copyFilter, key _ h]

/-- C2, witness for the amended theorem: contents of a node_modules
directory are excluded. -/
theorem C2_witness :
    copyFilter (joinPath ["node_modules", "react", "package.json"]) = false :=
  C2_component_exclusion ["node_modules", "react", "package.json"]
    (Or.inl (by decide))

/-! ## Claim C3 -/

/-- C3, counterexample: a package.json consisting of exactly the
package-manager token is left unchanged by the substitution pass (the claim
would require the token to be replaced by the package-manager value). -/
theorem C3_counterexample :
    lookupFS (generateFilesFS [("package.json", Node.file packageManagerToken)]
        ⟨"demo-app", "pnpm"⟩) "package.json"
      = some (Node.file packageManagerToken) ∧
    packageManagerToken ≠ "pnpm" := by
  decide

/-- C3, amended: for each targeted file that exists, the pass performs global
literal replacement and overwrites the file — but in package.json only the
project-name token is replaced, while both tokens are replaced in README.md
(project-name first, then package-manager). -/
theorem C3_substitution (fs : FS) (v : TemplateVariables) (cp cr : String)
    (hp : lookupFS fs "package.json" = some (Node.file cp))
    (hr : lookupFS fs "README.md" = some (Node.file cr)) :
    lookupFS (generateFilesFS fs v) "package.json"
      = some (Node.file (replaceAllStr cp projectNameToken v.projectName)) ∧
    lookupFS (generateFilesFS fs v) "README.md"
      = some (Node.file (replaceAllStr (replaceAllStr cr projectNameToken v.projectName)
          packageManagerToken v.packageManager)) := by
  have hr1 : lookupFS (writeFile fs "package.json"
      (replaceAllStr cp projectNameToken v.projectName)) "README.md"
      = some (Node.file cr) := by
    simp [writeFile, lookupFS, hr]
  simp only [generateFilesFS, hp, hr1]
  constructor
  · simp [writeFile, lookupFS]
  · simp [writeFile, lookupFS]

/-- C3, witness for the amended theorem on a concrete two-file tree. -/
theorem C3_witness :
    lookupFS (generateFilesFS [("package.json", Node.file "n"), ("README.md", Node.file "r")]
        ⟨"demo-app", "pnpm"⟩) "package.json"
      = some (Node.file (replaceAllStr "n" projectNameToken "demo-app")) ∧
    lookupFS (generateFilesFS [("package.json", Node.file "n"), ("README.md", Node.file "r")]
        ⟨"demo-app", "pnpm"⟩) "README.md"
      = some (Node.file (replaceAllStr (replaceAllStr "r" projectNameToken "demo-app")
          packageManagerToken "pnpm")) :=
  C3_substitution [("package.json", Node.file "n"), ("README.md", Node.file "r")]
    ⟨"demo-app", "pnpm"⟩ "n" "r" rfl rfl

/-! ## Claim C5 -/

/-- C5: on the four supported package managers both command mappings are
total with the expected pairwise-distinct literals; `pnpm` in particular
yields `pnpm install` and `pnpm dev`; and for any script name the run
mapping stays total and non-empty. -/
theorem C5_command_mapping :
    (getInstallCommand "npm" = some "npm install" ∧
     getInstallCommand "pnpm" = some "pnpm install" ∧
     getInstallCommand "yarn" = some "yarn install" ∧
     getInstallCommand "bun" = some "bun install") ∧
    (getRunCommand "npm" "dev" = some "npm run dev" ∧
     getRunCommand "pnpm" "dev" = some "pnpm dev" ∧
     getRunCommand "yarn" "dev" = some "yarn dev" ∧
     getRunCommand "bun" "dev" = some "bun run dev") ∧
    (["npm install", "pnpm install", "yarn install", "bun install"].Nodup ∧
     ["npm run dev", "pnpm dev", "yarn dev", "bun run dev"].Nodup) ∧
    (∀ script : String,
      (getRunCommand "npm" script).isSome ∧ (getRunCommand "pnpm" script).isSome ∧
      (getRunCommand "yarn" script).isSome ∧ (getRunCommand "bun" script).isSome ∧
      (getRunCommand "npm" script ≠ some "" ∧ getRunCommand "pnpm" script ≠ some "" ∧
       getRunCommand "yarn" script ≠ some "" ∧ getRunCommand "bun" script ≠ some "")) := by
  refine ⟨by decide, by decide, by decide, ?_⟩
  intro script
  exact ⟨rfl, rfl, rfl, rfl,
    fun h => append_left_ne_empty "npm run " script (by decide) (Option.some.inj h),
    fun h => append_left_ne_empty "pnpm " script (by decide) (Option.some.inj h),
    fun h => append_left_ne_empty "yarn " script (by decide) (Option.some.inj h),
    fun h => append_left_ne_empty "bun run " script (by decide) (Option.some.inj h)⟩

/-! ## Claim C9 -/

/-- C9: materialization is deterministic — two invocations against a fresh
empty target with equal template variables produce equal manifests and
byte-identical trees (purity holds because the embedded source functions
read nothing beyond their arguments: no ambient state, clock or randomness
appears in `getProjectStructure`, `copyTemplates` or
`createProjectStructure`). -/
theorem C9_deterministic_materialization (v1 v2 : TemplateVariables)
    (templatesPath : String) (templates : Option FS) (h : v1 = v2) :
    getProjectStructure v1 = getProjectStructure v2 ∧
    createProjectStructureFS [] v1 = createProjectStructureFS [] v2 ∧
    copyTemplatesFS templatesPath templates [] v1
      = copyTemplatesFS templatesPath templates [] v2 := by
  subst h
  exact ⟨rfl, rfl, rfl⟩

/-- C9, witness at concrete variables. -/
theorem C9_witness :
    getProjectStructure ⟨"demo-app", "pnpm"⟩ = getProjectStructure ⟨"demo-app", "pnpm"⟩ :=
  (C9_deterministic_materialization ⟨"demo-app", "pnpm"⟩ ⟨"demo-app", "pnpm"⟩
    "templates" none rfl).1
/-! ## Filesystem lemmas for the materialization postcondition -/

theorem lookupFS_writeFile_self (fs : FS) (p c : String) :
    lookupFS (writeFile fs p c) p = some (Node.file c) := by
  simp [writeFile, lookupFS]

theorem lookupFS_writeFile_ne (fs : FS) (p c q : String) (h : p ≠ q) :
    lookupFS (writeFile fs p c) q = lookupFS fs q := by
  simp [writeFile, lookupFS, h]

theorem lookupFS_mkDirIfAbsent (fs : FS) (p q : String) (n : Node)
    (h : lookupFS fs q = some n) : lookupFS (mkDirIfAbsent fs p) q = some n := by
  unfold mkDirIfAbsent
  cases hp : lookupFS fs p with
  | some m => exact h
  | none =>
    have hne : p ≠ q := by
      intro he
      rw [he, h] at hp
      cases hp
    simp [lookupFS, hne, h]

theorem lookupFS_foldl_mkDir (ps : List String) (fs : FS) (q : String) (n : Node)
    (h : lookupFS fs q = some n) :
    lookupFS (ps.foldl mkDirIfAbsent fs) q = some n := by
  induction ps generalizing fs with
  | nil => exact h
  | cons a t ih => exact ih _ (lookupFS_mkDirIfAbsent _ _ _ _ h)

theorem lookupFS_ensureDir (fs : FS) (p q : String) (n : Node)
    (h : lookupFS fs q = some n) : lookupFS (ensureDir fs p) q = some n :=
  lookupFS_foldl_mkDir _ _ _ _ h

theorem lookupFS_ensureParent (fs : FS) (p q : String) (n : Node)
    (h : lookupFS fs q = some n) : lookupFS (ensureParent fs p) q = some n := by
  unfold ensureParent
  split
  · exact h
  · exact lookupFS_ensureDir _ _ _ _ h

theorem lookupFS_writeEntry_ne (fs : FS) (e : FileEntry) (q : String) (n : Node)
    (hne : e.path ≠ q) (h : lookupFS fs q = some n) :
    lookupFS (writeEntry fs e) q = some n := by
  unfold writeEntry
  rw [lookupFS_writeFile_ne _ _ _ _ hne]
  exact lookupFS_ensureParent _ _ _ _ h

theorem lookupFS_foldl_writeEntry_preserve (entries : List FileEntry) (fs : FS)
    (q : String) (n : Node) (hne : ∀ e ∈ entries, e.path ≠ q)
    (h : lookupFS fs q = some n) :
    lookupFS (entries.foldl writeEntry fs) q = some n := by
  induction entries generalizing fs with
  | nil => exact h
  | cons a t ih =>
    rw [List.foldl_cons]
    exact ih _ (fun e he => hne e (List.mem_cons_of_mem a he))
      (lookupFS_writeEntry_ne _ _ _ _ (hne a (List.mem_cons_self a t)) h)

theorem lookupFS_foldl_writeEntry_mem (entries : List FileEntry) (fs : FS)
    (e : FileEntry) (he : e ∈ entries)
    (hnd : (entries.map FileEntry.path).Nodup) :
    lookupFS (entries.foldl writeEntry fs) e.path = some (Node.file e.content) := by
  induction entries generalizing fs with
  | nil => cases he
  | cons a t ih =>
    rw [List.foldl_cons]
    rw [List.map_cons, List.nodup_cons] at hnd
    rcases List.mem_cons.mp he with he1 | he2
    · subst he1
      refine lookupFS_foldl_writeEntry_preserve t _ _ _ ?_ ?_
      · intro e2 he2 heq
        exact hnd.1 (heq ▸ List.mem_map_of_mem FileEntry.path he2)
      · exact lookupFS_writeFile_self _ _ _
    · exact ih _ he2 hnd.2

/-- Manifest paths are fixed literals, so a path not among them differs from
the path of every manifest entry, whatever the template variables are. -/
theorem manifest_path_ne (v : TemplateVariables) (q : String) (hq : q ∉ manifestPaths) :
    ∀ e ∈ getProjectStructure v, e.path ≠ q := by
  intro e he heq
  have h1 := List.mem_map_of_mem FileEntry.path he
  rw [show (getProjectStructure v).map FileEntry.path = manifestPaths from rfl] at h1
  rw [heq] at h1
  exact hq h1

/-! ## Claim C4 -/

/-- C4: after the manifest-path materialization on an empty target, every
manifest entry is present with exactly its provided content, and every
`emptyDirs` entry exists as a directory containing an empty `.gitkeep`
placeholder file. -/
theorem C4_manifest_materialization (v : TemplateVariables) :
    (∀ e ∈ getProjectStructure v,
        lookupFS (createProjectStructureFS [] v) e.path = some (Node.file e.content)) ∧
    (∀ d ∈ emptyDirs,
        lookupFS (createProjectStructureFS [] v) d = some Node.dir ∧
        lookupFS (createProjectStructureFS [] v) (d ++ "/.gitkeep")
          = some (Node.file "")) := by
  have hEq : createProjectStructureFS [] v
      = (getProjectStructure v).foldl writeEntry phase12 := rfl
  rw [hEq]
  constructor
  · intro e he
    refine lookupFS_foldl_writeEntry_mem (getProjectStructure v) phase12 e he ?_
    rw [show (getProjectStructure v).map FileEntry.path = manifestPaths from rfl]
    decide
  · intro d hd
    fin_cases hd <;>
      exact ⟨lookupFS_foldl_writeEntry_preserve _ _ _ _
               (manifest_path_ne v _ (by decide)) (by decide),
             lookupFS_foldl_writeEntry_preserve _ _ _ _
               (manifest_path_ne v _ (by decide)) (by decide)⟩

/-- C4, witness: a concrete placeholder directory after a concrete run. -/
theorem C4_witness :
    lookupFS (createProjectStructureFS [] ⟨"demo-app", "pnpm"⟩) "src/stores"
      = some Node.dir :=
  ((C4_manifest_materialization ⟨"demo-app", "pnpm"⟩).2 "src/stores" (by decide)).1
/-! ## Lemmas for the manifest-content claim -/

theorem strAppend_assoc (a b c : String) : a ++ b ++ c = a ++ (b ++ c) := by
  cases a with
  | mk la =>
    cases b with
    | mk lb =>
      cases c with
      | mk lc =>
        show String.mk (la ++ lb ++ lc) = String.mk (la ++ (lb ++ lc))
        rw [List.append_assoc]

theorem strIncludes_triple (x pat z : String) : strIncludes (x ++ (pat ++ z)) pat = true := by
  refine strIncludes_of_data _ _ x.data z.data ?_
  simp [String.data_append]

theorem jsonEscapeChar_of_valid (c : Char) (h : validNameChar c = true) :
    jsonEscapeChar c = [c] := by
  have hn := of_decide_eq_true h
  have h45 : 45 ≤ c.toNat := by
    rcases hn with ⟨h1, _⟩ | ⟨h1, _⟩ | ⟨h1, _⟩ | h1 <;> omega
  have hq : c ≠ '"' := by intro he; subst he; exact absurd hn (by decide)
  have hb : c ≠ '\\' := by intro he; subst he; exact absurd hn (by decide)
  have hnl : c ≠ '\n' := by intro he; subst he; exact absurd hn (by decide)
  have hcr : c ≠ '\r' := by intro he; subst he; exact absurd hn (by decide)
  have htb : c ≠ '\t' := by intro he; subst he; exact absurd hn (by decide)
  have h8 : ¬ c.toNat = 8 := by omega
  have h12 : ¬ c.toNat = 12 := by omega
  have h32 : ¬ c.toNat < 32 := by omega
  unfold jsonEscapeChar
  rw [if_neg hq, if_neg hb, if_neg hnl, if_neg hcr, if_neg htb,
    if_neg h8, if_neg h12, if_neg h32]

theorem jsonEscape_of_valid (l : List Char) (h : l.all validNameChar = true) :
    jsonEscape l = l := by
  induction l with
  | nil => rfl
  | cons c t ih =>
    rw [List.all_cons, Bool.and_eq_true] at h
    simp [jsonEscape, jsonEscapeChar_of_valid c h.1, ih h.2]

theorem jsonStr_of_valid (s : String) (h : validProjectName s = true) :
    jsonStr s = "\"" ++ s ++ "\"" := by
  unfold validProjectName at h
  rw [Bool.and_eq_true] at h
  unfold jsonStr
  rw [jsonEscape_of_valid _ h.2]

/-- For a valid project name, the package.json content decomposes around the
JSON name field. -/
theorem packageJson_name_decomp (pn : String) (h : validProjectName pn = true) :
    packageJsonContent pn
      = "\x7b\n  " ++ (("\"name\": \"" ++ pn ++ "\"") ++ packageJsonPost) := by
  have hsplit : packageJsonPre ++ "\"" = "\x7b\n  " ++ "\"name\": \"" := by decide
  show packageJsonPre ++ jsonStr pn ++ packageJsonPost = _
  rw [jsonStr_of_valid pn h]
  simp only [← strAppend_assoc]
  rw [show packageJsonPre ++ "\"" = "\x7b\n  " ++ "\"name\": \"" from hsplit]

theorem packageJson_contains_name (pn : String) (h : validProjectName pn = true) :
    strIncludes (packageJsonContent pn) ("\"name\": \"" ++ pn ++ "\"") = true := by
  rw [packageJson_name_decomp pn h]
  exact strIncludes_triple _ _ _

theorem readme_contains_install (pn ic dc : String) :
    strIncludes (readmeContent pn ic dc) ic = true := by
  have hEq : readmeContent pn ic dc
      = ("\x23 " ++ pn ++ readmeMid1) ++ (ic ++ (readmeMid2 ++ dc ++ readmeEnd)) := by
    simp only [readmeContent, strAppend_assoc]
  rw [hEq]
  exact strIncludes_triple _ _ _

theorem readme_contains_dev (pn ic dc : String) :
    strIncludes (readmeContent pn ic dc) dc = true := by
  have hEq : readmeContent pn ic dc
      = ("\x23 " ++ pn ++ readmeMid1 ++ ic ++ readmeMid2) ++ (dc ++ readmeEnd) := by
    simp only [readmeContent, strAppend_assoc]
  rw [hEq]
  exact strIncludes_triple _ _ _

/-! ## Claim C6 -/

/-- C6: for valid template variables the manifest embeds the literal project
name at the JSON name field of package.json, and README.md embeds the
install and run commands of the mapping table for the given package manager;
the demo-app/pnpm scenario produces the expected strings and the three
placeholder marker files. -/
theorem C6_manifest_embedding (v : TemplateVariables)
    (hname : validProjectName v.projectName = true)
    (hpm : v.packageManager = "npm" ∨ v.packageManager = "pnpm" ∨
      v.packageManager = "yarn" ∨ v.packageManager = "bun") :
    (findEntry (getProjectStructure v) "package.json"
        = some (packageJsonContent v.projectName) ∧
      strIncludes (packageJsonContent v.projectName)
        ("\"name\": \"" ++ v.projectName ++ "\"") = true) ∧
    (∃ ic dc, getInstallCommand v.packageManager = some ic ∧
      getRunCommand v.packageManager "dev" = some dc ∧
      findEntry (getProjectStructure v) "README.md"
        = some (readmeContent v.projectName ic dc) ∧
      strIncludes (readmeContent v.projectName ic dc) ic = true ∧
      strIncludes (readmeContent v.projectName ic dc) dc = true) ∧
    (strIncludes (packageJsonContent "demo-app") "\"name\": \"demo-app\"" = true ∧
     strIncludes (readmeContent "demo-app" "pnpm install" "pnpm dev") "pnpm install" = true ∧
     strIncludes (readmeContent "demo-app" "pnpm install" "pnpm dev") "pnpm dev" = true ∧
     ∀ d ∈ (["src/shared/constants", "src/stores", "src/tests/e2e"] : List String),
       lookupFS (createProjectStructureFS [] ⟨"demo-app", "pnpm"⟩) (d ++ "/.gitkeep")
         = some (Node.file "")) := by
  refine ⟨⟨rfl, packageJson_contains_name _ hname⟩, ?_, by decide, by decide, by decide, ?_⟩
  · rcases hpm with h | h | h | h <;> rw [show v = ⟨v.projectName, v.packageManager⟩ from rfl, h]
    · exact ⟨"npm install", "npm run dev", rfl, rfl, rfl,
        readme_contains_install _ _ _, readme_contains_dev _ _ _⟩
    · exact ⟨"pnpm install", "pnpm dev", rfl, rfl, rfl,
        readme_contains_install _ _ _, readme_contains_dev _ _ _⟩
    · exact ⟨"yarn install", "yarn dev", rfl, rfl, rfl,
        readme_contains_install _ _ _, readme_contains_dev _ _ _⟩
    · exact ⟨"bun install", "bun run dev", rfl, rfl, rfl,
        readme_contains_install _ _ _, readme_contains_dev _ _ _⟩
  · intro d hd
    fin_cases hd <;> decide

/-- C6, witness at the demo-app/pnpm scenario variables. -/
theorem C6_witness :
    findEntry (getProjectStructure ⟨"demo-app", "pnpm"⟩) "package.json"
      = some (packageJsonContent "demo-app") :=
  (C6_manifest_embedding ⟨"demo-app", "pnpm"⟩ (by decide)
    (Or.inr (Or.inl rfl))).1.1

/-! ## Claim C7 -/

/-- C7: with the target directory already present, prompts enabled and the
overwrite confirmation declined, the run returns the pre-existing subtree
unchanged, performs no filesystem mutation, prints no next steps, and the
process exits 0 — whatever the other environment inputs are. -/
theorem C7_decline_clean_abort (d : FS) (overwriteAnswer : Bool)
    (templatesPath : String) (templates : Option FS) (mOk sOk iOk : Bool)
    (o : CreateProjectOptions)
    (hskip : o.skipPrompts = false) (hans : overwriteAnswer = false) :
    createProjectRun (some d) overwriteAnswer templatesPath templates mOk sOk iOk o
      = Except.ok ⟨some d, Outcome.cancelled, none, []⟩ ∧
    actionExitCode
      (createProjectRun (some d) overwriteAnswer templatesPath templates mOk sOk iOk o)
      = 0 := by
  have h1 : createProjectRun (some d) overwriteAnswer templatesPath templates mOk sOk iOk o
      = Except.ok ⟨some d, Outcome.cancelled, none, []⟩ := by
    simp [createProjectRun, hskip, hans]
  exact ⟨h1, by rw [h1]; rfl⟩

/-- C7, witness: a concrete declined run over a non-empty directory. -/
theorem C7_witness :
    createProjectRun (some [("keep.txt", Node.file "data")]) false "templates" none
        true true true ⟨"demo-app", "pnpm", false, true⟩
      = Except.ok ⟨some [("keep.txt", Node.file "data")], Outcome.cancelled, none, []⟩ :=
  (C7_decline_clean_abort [("keep.txt", Node.file "data")] false "templates" none
    true true true ⟨"demo-app", "pnpm", false, true⟩ rfl rfl).1

/-! ## Claim C8 -/

/-- C8: when materialization and substitution succeed but the install
subprocess fails, the failure is non-fatal — the run records the warning
together with the manual install command, still completes with the
materialized tree and the next-steps output, and the process exits 0. -/
theorem C8_install_failure_nonfatal (existing : Option FS) (overwriteAnswer : Bool)
    (templatesPath : String) (templates : Option FS) (o : CreateProjectOptions)
    (hauto : o.autoInstall = true)
    (hrun : existing = none ∨ o.skipPrompts = true ∨ overwriteAnswer = true) :
    createProjectRun existing overwriteAnswer templatesPath templates true true false o
      = Except.ok ⟨some (generateFilesFS
            (copyTemplatesFS templatesPath templates [] ⟨o.projectName, o.packageManager⟩)
            ⟨o.projectName, o.packageManager⟩),
          Outcome.completed true true,
          some ("  Run: " ++ jsShow (getInstallCommand o.packageManager)),
          ["  cd " ++ o.projectName,
           "  " ++ jsShow (getRunCommand o.packageManager "dev") ++ "\n"]⟩ ∧
    actionExitCode
      (createProjectRun existing overwriteAnswer templatesPath templates true true false o)
      = 0 := by
  have hbody : createProjectBody templatesPath templates true true false o
      = Except.ok ⟨some (generateFilesFS
            (copyTemplatesFS templatesPath templates [] ⟨o.projectName, o.packageManager⟩)
            ⟨o.projectName, o.packageManager⟩),
          Outcome.completed true true,
          some ("  Run: " ++ jsShow (getInstallCommand o.packageManager)),
          ["  cd " ++ o.projectName,
           "  " ++ jsShow (getRunCommand o.packageManager "dev") ++ "\n"]⟩ := by
    simp [createProjectBody, hauto]
  have h1 : createProjectRun existing overwriteAnswer templatesPath templates true true false o
      = createProjectBody templatesPath templates true true false o := by
    rcases hrun with h | h | h
    · subst h; rfl
    · rcases existing with _ | d
      · rfl
      · simp [createProjectRun, h]
    · rcases existing with _ | d
      · rfl
      · simp [createProjectRun, h]
  rw [h1, hbody]
  exact ⟨rfl, rfl⟩

/-- C8, witness: a concrete failed-install run. -/
theorem C8_witness :
    actionExitCode (createProjectRun none false "templates" none true true false
      ⟨"demo-app", "pnpm", false, true⟩) = 0 :=
  (C8_install_failure_nonfatal none false "templates" none
    ⟨"demo-app", "pnpm", false, true⟩ rfl (Or.inl rfl)).2

/-! ## Claim C10 -/

/-- C10: with the yes flag, the action builds options with
`autoInstall = false`, so the install step is never attempted — every
completed run has an unattempted install and prints the install command as a
next step instead. -/
theorem C10_yes_disables_install (arg : Option String) (opts : CliOptions)
    (promptPm promptName : String) (hyes : opts.yes = true) :
    (actionOptions arg opts promptPm promptName).autoInstall = false ∧
    (∀ existing overwriteAnswer templatesPath templates mOk sOk iOk r,
        createProjectRun existing overwriteAnswer templatesPath templates mOk sOk iOk
            (actionOptions arg opts promptPm promptName) = Except.ok r →
        r.outcome = Outcome.cancelled ∨
        (r.outcome = Outcome.completed false false ∧
          ("  " ++ jsShow (getInstallCommand
              (actionOptions arg opts promptPm promptName).packageManager))
            ∈ r.nextSteps)) := by
  have hai : (actionOptions arg opts promptPm promptName).autoInstall = false := by
    simp [actionOptions, hyes]
  refine ⟨hai, ?_⟩
  intro existing overwriteAnswer templatesPath templates mOk sOk iOk r hr
  have hbody : ∀ hb : createProjectBody templatesPath templates mOk sOk iOk
      (actionOptions arg opts promptPm promptName) = Except.ok r,
      r.outcome = Outcome.completed false false ∧
        ("  " ++ jsShow (getInstallCommand
            (actionOptions arg opts promptPm promptName).packageManager))
          ∈ r.nextSteps := by
    intro hb
    cases mOk with
    | false => simp [createProjectBody] at hb
    | true =>
      cases sOk with
      | false => simp [createProjectBody] at hb
      | true =>
        simp [createProjectBody, hai] at hb
        rw [← hb]
        exact ⟨rfl, by simp⟩
  rcases existing with _ | d
  · exact Or.inr (hbody hr)
  · by_cases hc : (!(actionOptions arg opts promptPm promptName).skipPrompts
        && !overwriteAnswer) = true
    · rw [show createProjectRun (some d) overwriteAnswer templatesPath templates mOk sOk iOk
          (actionOptions arg opts promptPm promptName)
          = Except.ok ⟨some d, Outcome.cancelled, none, []⟩ from by
            simp [createProjectRun, hc]] at hr
      rw [← Except.ok.inj hr]
      exact Or.inl rfl
    · rw [show createProjectRun (some d) overwriteAnswer templatesPath templates mOk sOk iOk
          (actionOptions arg opts promptPm promptName)
          = createProjectBody templatesPath templates mOk sOk iOk
              (actionOptions arg opts promptPm promptName) from by
            simp [createProjectRun, hc]] at hr
      exact Or.inr (hbody hr)

/-- C10, witness: options built with the yes flag disable auto-install. -/
theorem C10_witness :
    (actionOptions none ⟨none, true⟩ "npm" "demo-app").autoInstall = false :=
  (C10_yes_disables_install none ⟨none, true⟩ "npm" "demo-app" rfl).1

end NextScafold
